import Mathlib

/-!
Shallow embedding of the `nesty` 6502 CPU dispatch/execution engine
(`src/cpu/dispatch.rs`, `src/cpu/dispatch/instructions/*`), together with
theorems settling the spec claims about it.

Machine integers are modelled as `Nat` with explicit reductions at the
points where the Rust types force them: `u8` values are reduced `% 256`,
`u16` values `% 65536`.  Rust `match` on an integer scalar is rendered as
an `if`-chain on equalities; `unreachable!()` branches become `none` /
a fatal `Fault`, and `unimplemented!()` becomes a fatal `Fault` carrying
the panic's fixed diagnostic string.
-/

/-- The memory bus contents: a byte-addressable store.  `Memory::load` is
`load8` below; every bus transaction performed by the engine is recorded as
a `BusOp`. -/
def Mem : Type := Nat → Nat

/-- One memory-bus transaction (`Memory::load` / `Memory::store`).
Dummy reads are ordinary `load`s whose result the caller discards. -/
inductive BusOp where
  | load (addr : Nat)
  | store (addr : Nat) (value : Nat)
deriving DecidableEq

/-- `Memory::load(addr: u16) -> u8`: the address is a `u16`, the result a
byte. -/
def load8 (m : Mem) (a : Nat) : Nat := m (a % 65536) % 256

/-- The bus record of a load at `u16` address `a`. -/
def busLoad (a : Nat) : BusOp := .load (a % 65536)

/-- The architectural status register (`StatusFlags` bitflags): CARRY, ZERO,
INTERRUPT_DISABLE, DECIMAL, BREAK, IGNORED, OVERFLOW, NEGATIVE. -/
structure StatusFlags where
  carry : Bool
  zero : Bool
  interrupt_disable : Bool
  decimal : Bool
  brk : Bool
  ignored : Bool
  overflow : Bool
  negative : Bool
deriving DecidableEq

/-- `InternalFlags`: private per-instruction scratch bits, separate from the
architectural status register.  Only `EFFECTIVE_ADDR_CARRY` is defined. -/
structure InternalFlags where
  effective_addr_carry : Bool
deriving DecidableEq

/-- The `OpCode` enum from `src/cpu/dispatch.rs` (num_enum
`FromPrimitive` with `Unimplemented = 0x0` as the `#[default]`). -/
inductive OpCode where
  | AdcImmediate
  | AdcZeroPage
  | AdcZeroPageX
  | AdcAbsolute
  | AdcAbsoluteX
  | AdcAbsoluteY
  | AdcIndirectX
  | AdcIndirectY
  | AndImmediate
  | AndZeroPage
  | AndZeroPageX
  | AndAbsolute
  | AndAbsoluteX
  | AndAbsoluteY
  | AndIndirectX
  | AndIndirectY
  | BitZeroPage
  | BitAbsolute
  | Clc
  | Cld
  | Cli
  | Clv
  | CmpImmediate
  | CmpZeroPage
  | CmpZeroPageX
  | CmpAbsolute
  | CmpAbsoluteX
  | CmpAbsoluteY
  | CmpIndirectX
  | CmpIndirectY
  | Dex
  | Dey
  | EorImmediate
  | EorZeroPage
  | EorZeroPageX
  | EorAbsolute
  | EorAbsoluteX
  | EorAbsoluteY
  | EorIndirectX
  | EorIndirectY
  | Inx
  | Iny
  | LdaImmediate
  | LdaZeroPage
  | LdaZeroPageX
  | LdaAbsolute
  | LdaAbsoluteX
  | LdaAbsoluteY
  | LdaIndirectX
  | LdaIndirectY
  | LdxImmediate
  | LdxZeroPage
  | LdxZeroPageY
  | LdxAbsolute
  | LdxAbsoluteY
  | LdyImmediate
  | LdyZeroPage
  | LdyZeroPageX
  | LdyAbsolute
  | LdyAbsoluteX
  | Nop
  | OraImmediate
  | OraZeroPage
  | OraZeroPageX
  | OraAbsolute
  | OraAbsoluteX
  | OraAbsoluteY
  | OraIndirectX
  | OraIndirectY
  | SbcImmediate
  | SbcZeroPage
  | SbcZeroPageX
  | SbcAbsolute
  | SbcAbsoluteX
  | SbcAbsoluteY
  | SbcIndirectX
  | SbcIndirectY
  | Sec
  | Sed
  | Sei
  | StaZeroPage
  | StaZeroPageX
  | StaAbsolute
  | StaAbsoluteX
  | StaAbsoluteY
  | StaIndirectX
  | StaIndirectY
  | StxZeroPage
  | StxZeroPageY
  | StxAbsolute
  | StyZeroPage
  | StyZeroPageX
  | StyAbsolute
  | Tax
  | Tay
  | Tsx
  | Txa
  | Txs
  | Tya
  | Unimplemented
deriving DecidableEq

/-- The CPU register file plus per-instruction execution scratch
(`Cpu` in the source).  `u8` fields are bytes, `program_counter` and
`effective_address` are `u16`; reductions are applied at use sites. -/
structure Cpu where
  accumulator : Nat
  x_index : Nat
  y_index : Nat
  stack_pointer : Nat
  program_counter : Nat
  flags : StatusFlags
  current_opcode : OpCode
  current_cycle : Nat
  effective_address : Nat
  pointer_address : Nat
  internal_flags : InternalFlags
deriving DecidableEq

/-- Modelled from the spec: `utils::fetch_from_pc` (the `utils` crate is not
under `src/`).  Per §4.1 and invariant §3.4: load one byte at `PC`,
increment `PC` (a `u16`, so wrapping).  Returns the byte, the updated CPU
and the bus transaction performed. -/
def fetch_from_pc (cpu : Cpu) (m : Mem) : Nat × Cpu × BusOp :=
  (load8 m cpu.program_counter,
   { cpu with program_counter := (cpu.program_counter + 1) % 65536 },
   busLoad cpu.program_counter)

/-- Modelled from the spec: `get_x_index` (helper from the instructions
module, not under `src/`): reads the X index register. -/
def get_x_index (cpu : Cpu) : Nat := cpu.x_index

/-- Modelled from the spec: `get_y_index` (helper from the instructions
module, not under `src/`): reads the Y index register. -/
def get_y_index (cpu : Cpu) : Nat := cpu.y_index

/-- The outcome of one template/dispatcher invocation: the updated CPU, the
bus transactions performed during this cycle, and whether the instruction
completed (`ControlFlow::Break`). -/
structure StepOut where
  cpu : Cpu
  ops : List BusOp
  isBreak : Bool
deriving DecidableEq

/-- `templates/read.rs::zeropage_indexed`: the dispatcher-wired zero-page
indexed read template.  Cycle 2 does a dummy load and wraps the index
addition in 8 bits (`(ea as u8).wrapping_add(index) as u16`).  Out-of-range
cycles hit `unreachable!()`, modelled as `none`. -/
def zeropage_indexed (get_index : Cpu → Nat) (f : Cpu → Nat → Cpu)
    (cpu : Cpu) (m : Mem) : Option StepOut :=
  if cpu.current_cycle = 1 then
    let r := fetch_from_pc cpu m
    some ⟨{ r.2.1 with effective_address := r.1 }, [r.2.2], false⟩
  else if cpu.current_cycle = 2 then
    some ⟨{ cpu with effective_address :=
              (cpu.effective_address % 256 + get_index cpu % 256) % 256 },
          [busLoad cpu.effective_address], false⟩
  else if cpu.current_cycle = 3 then
    some ⟨f cpu (load8 m cpu.effective_address),
          [busLoad cpu.effective_address], true⟩
  else none

/-- `templates.rs::read_zeropage_indexed`: the `CpuState`-based variant of
the zero-page indexed read template still present in the source.  Cycle 2
adds the index as a `u16` (`effective_address += index as u16`, wrapping in
16 bits) and then masks with `0xFF` (`effective_address &= 0xFF`).  For the
comparison both variants are defined over the same state record, the
`CpuState`/`Cpu` correspondence being field-wise identity. -/
def read_zeropage_indexed (get_index : Cpu → Nat) (f : Cpu → Nat → Cpu)
    (cpu : Cpu) (m : Mem) : Option StepOut :=
  if cpu.current_cycle = 1 then
    let r := fetch_from_pc cpu m
    some ⟨{ r.2.1 with effective_address := r.1 }, [r.2.2], false⟩
  else if cpu.current_cycle = 2 then
    some ⟨{ cpu with effective_address :=
              ((cpu.effective_address + get_index cpu % 256) % 65536) % 256 },
          [busLoad cpu.effective_address], false⟩
  else if cpu.current_cycle = 3 then
    some ⟨f cpu (load8 m cpu.effective_address),
          [busLoad cpu.effective_address], true⟩
  else none

/-- C9: the two zero-page-indexed read templates are observably
equivalent — on every state (any cycle, in contract or not), with the same
index accessor, handler and memory, they return identical results: the same
bus operations, the same effective address, the same handler invocation and
the same continue/break outcome. -/
theorem read_zeropage_indexed_eq_zeropage_indexed
    (get_index : Cpu → Nat) (f : Cpu → Nat → Cpu) (cpu : Cpu) (m : Mem) :
    read_zeropage_indexed get_index f cpu m = zeropage_indexed get_index f cpu m := by
  unfold read_zeropage_indexed zeropage_indexed
  have h : ((cpu.effective_address + get_index cpu % 256) % 65536) % 256
      = (cpu.effective_address % 256 + get_index cpu % 256) % 256 := by
    omega
  rw [h]

/-- `templates/read.rs::immediate`: 2-cycle immediate read (cycle 1 after the
opcode fetch): fetch the operand byte at `PC`, invoke the handler, break. -/
def immediate (f : Cpu → Nat → Cpu) (cpu : Cpu) (m : Mem) : Option StepOut :=
  if cpu.current_cycle = 1 then
    let r := fetch_from_pc cpu m
    some ⟨f r.2.1 r.1, [r.2.2], true⟩
  else none

/-- `templates/read.rs::zeropage`: 3-cycle zero-page read. -/
def zeropage (f : Cpu → Nat → Cpu) (cpu : Cpu) (m : Mem) : Option StepOut :=
  if cpu.current_cycle = 1 then
    let r := fetch_from_pc cpu m
    some ⟨{ r.2.1 with effective_address := r.1 }, [r.2.2], false⟩
  else if cpu.current_cycle = 2 then
    some ⟨f cpu (load8 m cpu.effective_address),
          [busLoad cpu.effective_address], true⟩
  else none

/-- `templates/read.rs::zeropage_x`. -/
def zeropage_x (f : Cpu → Nat → Cpu) (cpu : Cpu) (m : Mem) : Option StepOut :=
  zeropage_indexed get_x_index f cpu m

/-- `templates/read.rs::zeropage_y`. -/
def zeropage_y (f : Cpu → Nat → Cpu) (cpu : Cpu) (m : Mem) : Option StepOut :=
  zeropage_indexed get_y_index f cpu m

/-- `templates/read.rs::absolute`: 4-cycle absolute read.  Cycle 2 ors the
high operand byte into the upper half of `effective_address`
(`effective_address |= (byte as u16) << 8`). -/
def absolute (f : Cpu → Nat → Cpu) (cpu : Cpu) (m : Mem) : Option StepOut :=
  if cpu.current_cycle = 1 then
    let r := fetch_from_pc cpu m
    some ⟨{ r.2.1 with effective_address := r.1 }, [r.2.2], false⟩
  else if cpu.current_cycle = 2 then
    let r := fetch_from_pc cpu m
    some ⟨{ r.2.1 with effective_address := r.2.1.effective_address ||| (r.1 <<< 8) },
          [r.2.2], false⟩
  else if cpu.current_cycle = 3 then
    some ⟨f cpu (load8 m cpu.effective_address),
          [busLoad cpu.effective_address], true⟩
  else none

/-- `templates/read.rs::absolute_indexed`: 4-or-5-cycle absolute indexed
read.  Cycle 2 fetches the high byte, adds the index to the low byte with
`overflowing_add` and records the carry in
`InternalFlags::EFFECTIVE_ADDR_CARRY`.  Cycle 3 loads at the page-wrapped
address; on carry the value is discarded and `0x100` is added to the
effective address (`wrapping_add(1 << 8)` on a `u16`), otherwise the
handler runs and the instruction breaks.  Cycle 4 re-loads at the corrected
address. -/
def absolute_indexed (get_index : Cpu → Nat) (f : Cpu → Nat → Cpu)
    (cpu : Cpu) (m : Mem) : Option StepOut :=
  if cpu.current_cycle = 1 then
    let r := fetch_from_pc cpu m
    some ⟨{ r.2.1 with effective_address := r.1 }, [r.2.2], false⟩
  else if cpu.current_cycle = 2 then
    let r := fetch_from_pc cpu m
    let cpu1 := r.2.1
    let lowSum := cpu1.effective_address % 256 + get_index cpu1 % 256
    some ⟨{ cpu1 with
              effective_address := (r.1 <<< 8) ||| (lowSum % 256),
              internal_flags := { cpu1.internal_flags with
                effective_addr_carry := decide (256 ≤ lowSum) } },
          [r.2.2], false⟩
  else if cpu.current_cycle = 3 then
    if cpu.internal_flags.effective_addr_carry then
      some ⟨{ cpu with effective_address := (cpu.effective_address + (1 <<< 8)) % 65536 },
            [busLoad cpu.effective_address], false⟩
    else
      some ⟨f cpu (load8 m cpu.effective_address),
            [busLoad cpu.effective_address], true⟩
  else if cpu.current_cycle = 4 then
    some ⟨f cpu (load8 m cpu.effective_address),
          [busLoad cpu.effective_address], true⟩
  else none

/-- `templates/read.rs::absolute_x`. -/
def absolute_x (f : Cpu → Nat → Cpu) (cpu : Cpu) (m : Mem) : Option StepOut :=
  absolute_indexed get_x_index f cpu m

/-- `templates/read.rs::absolute_y`. -/
def absolute_y (f : Cpu → Nat → Cpu) (cpu : Cpu) (m : Mem) : Option StepOut :=
  absolute_indexed get_y_index f cpu m

/-- `templates/read.rs::indirect_x`: 6-cycle pre-indexed indirect read.
All pointer arithmetic wraps in the zero page (`u8` `wrapping_add`). -/
def indirect_x (f : Cpu → Nat → Cpu) (cpu : Cpu) (m : Mem) : Option StepOut :=
  if cpu.current_cycle = 1 then
    let r := fetch_from_pc cpu m
    some ⟨{ r.2.1 with pointer_address := r.1 }, [r.2.2], false⟩
  else if cpu.current_cycle = 2 then
    some ⟨{ cpu with pointer_address :=
              (cpu.pointer_address % 256 + cpu.x_index % 256) % 256 },
          [busLoad (cpu.pointer_address % 256)], false⟩
  else if cpu.current_cycle = 3 then
    some ⟨{ cpu with effective_address := load8 m (cpu.pointer_address % 256) },
          [busLoad (cpu.pointer_address % 256)], false⟩
  else if cpu.current_cycle = 4 then
    some ⟨{ cpu with effective_address :=
              cpu.effective_address |||
                (load8 m ((cpu.pointer_address % 256 + 1) % 256) <<< 8) },
          [busLoad ((cpu.pointer_address % 256 + 1) % 256)], false⟩
  else if cpu.current_cycle = 5 then
    some ⟨f cpu (load8 m cpu.effective_address),
          [busLoad cpu.effective_address], true⟩
  else none

/-- `templates/read.rs::indirect_y`: 5-or-6-cycle post-indexed indirect
read, with the same page-cross carry/fixup scheme as `absolute_indexed`. -/
def indirect_y (f : Cpu → Nat → Cpu) (cpu : Cpu) (m : Mem) : Option StepOut :=
  if cpu.current_cycle = 1 then
    let r := fetch_from_pc cpu m
    some ⟨{ r.2.1 with pointer_address := r.1 }, [r.2.2], false⟩
  else if cpu.current_cycle = 2 then
    some ⟨{ cpu with effective_address := load8 m (cpu.pointer_address % 256) },
          [busLoad (cpu.pointer_address % 256)], false⟩
  else if cpu.current_cycle = 3 then
    let address_high_byte := load8 m ((cpu.pointer_address % 256 + 1) % 256)
    let lowSum := cpu.effective_address % 256 + cpu.y_index % 256
    some ⟨{ cpu with
              effective_address := (address_high_byte <<< 8) ||| (lowSum % 256),
              internal_flags := { cpu.internal_flags with
                effective_addr_carry := decide (256 ≤ lowSum) } },
          [busLoad ((cpu.pointer_address % 256 + 1) % 256)], false⟩
  else if cpu.current_cycle = 4 then
    if cpu.internal_flags.effective_addr_carry then
      some ⟨{ cpu with effective_address := (cpu.effective_address + (1 <<< 8)) % 65536 },
            [busLoad cpu.effective_address], false⟩
    else
      some ⟨f cpu (load8 m cpu.effective_address),
            [busLoad cpu.effective_address], true⟩
  else if cpu.current_cycle = 5 then
    some ⟨f cpu (load8 m cpu.effective_address),
          [busLoad cpu.effective_address], true⟩
  else none

/-- Modelled from the spec: `utils::sub_with_carry` (the `utils` crate is
not under `src/`).  Per §4.3, SBC/CMP subtraction is ADC with the operand
inverted: the 9-bit sum `u = A + ~M + C_in` yields the low 8 bits as result
and bit 8 as carry-out (not-borrow). -/
def sub_with_carry (a b : Nat) (c : Bool) : Nat × Bool :=
  let u := a % 256 + (255 - b % 256) + (if c then 1 else 0)
  (u % 256, decide (256 ≤ u))

/-- `cmp.rs::common`: CMP computes `sub_with_carry(A, M, true)`, discards
the result byte and sets CARRY, NEGATIVE (`(result as i8) < 0`, i.e. bit 7)
and ZERO.  The accumulator is not written. -/
def cmp_common (cpu : Cpu) (value : Nat) : Cpu :=
  let r := sub_with_carry cpu.accumulator value true
  { cpu with flags := { cpu.flags with
      carry := r.2,
      negative := decide (128 ≤ r.1),
      zero := decide (r.1 = 0) } }

/-- Modelled from the spec: `set_register` (the register-write primitive,
not under `src/`).  Per §4.3: on an assignment of a byte to A/X/Y, store
the value and set ZERO to `value == 0` and NEGATIVE to bit 7 of the
value. -/
def set_register (value : Nat) (flags : StatusFlags) : Nat × StatusFlags :=
  (value, { flags with
    zero := decide (value = 0),
    negative := decide (128 ≤ value) })

/-- `eor.rs::common`: A ← A xor M via `set_register` (both operands are
bytes, so the xor is a byte). -/
def eor_common (cpu : Cpu) (value : Nat) : Cpu :=
  let r := set_register ((cpu.accumulator % 256) ^^^ (value % 256)) cpu.flags
  { cpu with accumulator := r.1, flags := r.2 }

/-- `OpCode::from(byte)` (num_enum `FromPrimitive`): the byte values fixed
in the `OpCode` enum of `src/cpu/dispatch.rs`; any unlisted byte maps to
the `#[default]` variant `Unimplemented`. -/
def opcodeFromByte (b : Nat) : OpCode :=
  match b with
  | 0x69 => .AdcImmediate
  | 0x65 => .AdcZeroPage
  | 0x75 => .AdcZeroPageX
  | 0x6D => .AdcAbsolute
  | 0x7D => .AdcAbsoluteX
  | 0x79 => .AdcAbsoluteY
  | 0x61 => .AdcIndirectX
  | 0x71 => .AdcIndirectY
  | 0x29 => .AndImmediate
  | 0x25 => .AndZeroPage
  | 0x35 => .AndZeroPageX
  | 0x2D => .AndAbsolute
  | 0x3D => .AndAbsoluteX
  | 0x39 => .AndAbsoluteY
  | 0x21 => .AndIndirectX
  | 0x31 => .AndIndirectY
  | 0x24 => .BitZeroPage
  | 0x2C => .BitAbsolute
  | 0x18 => .Clc
  | 0xD8 => .Cld
  | 0x58 => .Cli
  | 0xB8 => .Clv
  | 0xC9 => .CmpImmediate
  | 0xC5 => .CmpZeroPage
  | 0xD5 => .CmpZeroPageX
  | 0xCD => .CmpAbsolute
  | 0xDD => .CmpAbsoluteX
  | 0xD9 => .CmpAbsoluteY
  | 0xC1 => .CmpIndirectX
  | 0xD1 => .CmpIndirectY
  | 0xCA => .Dex
  | 0x88 => .Dey
  | 0x49 => .EorImmediate
  | 0x45 => .EorZeroPage
  | 0x55 => .EorZeroPageX
  | 0x4D => .EorAbsolute
  | 0x5D => .EorAbsoluteX
  | 0x59 => .EorAbsoluteY
  | 0x41 => .EorIndirectX
  | 0x51 => .EorIndirectY
  | 0xE8 => .Inx
  | 0xC8 => .Iny
  | 0xA9 => .LdaImmediate
  | 0xA5 => .LdaZeroPage
  | 0xB5 => .LdaZeroPageX
  | 0xAD => .LdaAbsolute
  | 0xBD => .LdaAbsoluteX
  | 0xB9 => .LdaAbsoluteY
  | 0xA1 => .LdaIndirectX
  | 0xB1 => .LdaIndirectY
  | 0xA2 => .LdxImmediate
  | 0xA6 => .LdxZeroPage
  | 0xB6 => .LdxZeroPageY
  | 0xAE => .LdxAbsolute
  | 0xBE => .LdxAbsoluteY
  | 0xA0 => .LdyImmediate
  | 0xA4 => .LdyZeroPage
  | 0xB4 => .LdyZeroPageX
  | 0xAC => .LdyAbsolute
  | 0xBC => .LdyAbsoluteX
  | 0xEA => .Nop
  | 0x09 => .OraImmediate
  | 0x05 => .OraZeroPage
  | 0x15 => .OraZeroPageX
  | 0x0D => .OraAbsolute
  | 0x1D => .OraAbsoluteX
  | 0x19 => .OraAbsoluteY
  | 0x01 => .OraIndirectX
  | 0x11 => .OraIndirectY
  | 0xE9 => .SbcImmediate
  | 0xE5 => .SbcZeroPage
  | 0xF5 => .SbcZeroPageX
  | 0xED => .SbcAbsolute
  | 0xFD => .SbcAbsoluteX
  | 0xF9 => .SbcAbsoluteY
  | 0xE1 => .SbcIndirectX
  | 0xF1 => .SbcIndirectY
  | 0x38 => .Sec
  | 0xF8 => .Sed
  | 0x78 => .Sei
  | 0x85 => .StaZeroPage
  | 0x95 => .StaZeroPageX
  | 0x8D => .StaAbsolute
  | 0x9D => .StaAbsoluteX
  | 0x99 => .StaAbsoluteY
  | 0x81 => .StaIndirectX
  | 0x91 => .StaIndirectY
  | 0x86 => .StxZeroPage
  | 0x96 => .StxZeroPageY
  | 0x8E => .StxAbsolute
  | 0x84 => .StyZeroPage
  | 0x94 => .StyZeroPageX
  | 0x8C => .StyAbsolute
  | 0xAA => .Tax
  | 0xA8 => .Tay
  | 0xBA => .Tsx
  | 0x8A => .Txa
  | 0x9A => .Txs
  | 0x98 => .Tya
  | _ => .Unimplemented

/-- The byte values of the recognized (non-sentinel) opcodes, as listed in
the `OpCode` enum of `src/cpu/dispatch.rs`. -/
def recognizedOpcodeBytes : List Nat :=
  [0x69, 0x65, 0x75, 0x6D, 0x7D, 0x79, 0x61, 0x71,
   0x29, 0x25, 0x35, 0x2D, 0x3D, 0x39, 0x21, 0x31,
   0x24, 0x2C,
   0x18, 0xD8, 0x58, 0xB8,
   0xC9, 0xC5, 0xD5, 0xCD, 0xDD, 0xD9, 0xC1, 0xD1,
   0xCA, 0x88,
   0x49, 0x45, 0x55, 0x4D, 0x5D, 0x59, 0x41, 0x51,
   0xE8, 0xC8,
   0xA9, 0xA5, 0xB5, 0xAD, 0xBD, 0xB9, 0xA1, 0xB1,
   0xA2, 0xA6, 0xB6, 0xAE, 0xBE,
   0xA0, 0xA4, 0xB4, 0xAC, 0xBC,
   0xEA,
   0x09, 0x05, 0x15, 0x0D, 0x1D, 0x19, 0x01, 0x11,
   0xE9, 0xE5, 0xF5, 0xED, 0xFD, 0xF9, 0xE1, 0xF1,
   0x38, 0xF8, 0x78,
   0x85, 0x95, 0x8D, 0x9D, 0x99, 0x81, 0x91,
   0x86, 0x96, 0x8E,
   0x84, 0x94, 0x8C,
   0xAA, 0xA8, 0xBA, 0x8A, 0x9A, 0x98]

/-- Modelled from the spec: the store templates' value accessor for STA
(§4.2.8/§4.3, instruction modules not under `src/`): the stored byte is the
accumulator. -/
def sta_value (cpu : Cpu) : Nat := cpu.accumulator

/-- Modelled from the spec: the STX store value accessor (§4.3). -/
def stx_value (cpu : Cpu) : Nat := cpu.x_index

/-- Modelled from the spec: the STY store value accessor (§4.3). -/
def sty_value (cpu : Cpu) : Nat := cpu.y_index

/-- Modelled from the spec: the AND handler (§4.3, module not under
`src/`): A ← A & M via `set_register` (N, Z). -/
def and_common (cpu : Cpu) (value : Nat) : Cpu :=
  let r := set_register ((cpu.accumulator % 256) &&& (value % 256)) cpu.flags
  { cpu with accumulator := r.1, flags := r.2 }

/-- Modelled from the spec: the ORA handler (§4.3): A ← A | M (N, Z). -/
def ora_common (cpu : Cpu) (value : Nat) : Cpu :=
  let r := set_register ((cpu.accumulator % 256) ||| (value % 256)) cpu.flags
  { cpu with accumulator := r.1, flags := r.2 }

/-- Modelled from the spec: the LDA handler (§4.3): A ← M (N, Z). -/
def lda_common (cpu : Cpu) (value : Nat) : Cpu :=
  let r := set_register (value % 256) cpu.flags
  { cpu with accumulator := r.1, flags := r.2 }

/-- Modelled from the spec: the LDX handler (§4.3): X ← M (N, Z). -/
def ldx_common (cpu : Cpu) (value : Nat) : Cpu :=
  let r := set_register (value % 256) cpu.flags
  { cpu with x_index := r.1, flags := r.2 }

/-- Modelled from the spec: the LDY handler (§4.3): Y ← M (N, Z). -/
def ldy_common (cpu : Cpu) (value : Nat) : Cpu :=
  let r := set_register (value % 256) cpu.flags
  { cpu with y_index := r.1, flags := r.2 }

/-- Modelled from the spec: the ADC handler (§4.3, binary mode): the 9-bit
sum `u = A + M + C_in` gives the result byte (low 8 bits, N/Z via
`set_register`), C_out (bit 8), and V = `(A ^ r) & (M ^ r) & 0x80 ≠ 0`. -/
def adc_common (cpu : Cpu) (value : Nat) : Cpu :=
  let a := cpu.accumulator % 256
  let v := value % 256
  let u := a + v + (if cpu.flags.carry then 1 else 0)
  let result := u % 256
  let r := set_register result
    { cpu.flags with
        carry := decide (256 ≤ u),
        overflow := decide ((a ^^^ result) &&& (v ^^^ result) &&& 0x80 ≠ 0) }
  { cpu with accumulator := r.1, flags := r.2 }

/-- Modelled from the spec: the SBC handler (§4.3): identical to ADC with
the operand inverted (`~M = 255 - M`), C_in read as not-borrow. -/
def sbc_common (cpu : Cpu) (value : Nat) : Cpu :=
  adc_common cpu (255 - value % 256)

/-- Modelled from the spec: the BIT handler (§4.3): N ← bit 7 of M, V ←
bit 6 of M, Z ← `(A & M) == 0`; A is not modified. -/
def bit_common (cpu : Cpu) (value : Nat) : Cpu :=
  { cpu with flags := { cpu.flags with
      negative := decide (128 ≤ value % 256),
      overflow := decide ((value % 256) &&& 0x40 ≠ 0),
      zero := decide ((cpu.accumulator % 256) &&& (value % 256) = 0) } }

/-- Modelled from the spec: the single-byte (implied-mode) instruction
template (§4.3/§3.3, modules not under `src/`): 2 cycles total; cycle 1
performs the mandatory dummy load (at `PC`, which is not advanced — no
operand byte is fetched, §3.4), applies the register/flag mutator and
breaks. -/
def single_byte (f : Cpu → Cpu) (cpu : Cpu) (m : Mem) : Option StepOut :=
  if cpu.current_cycle = 1 then
    let _ := load8 m cpu.program_counter
    some ⟨f cpu, [busLoad cpu.program_counter], true⟩
  else none

/-- Modelled from the spec: the TAX mutator (§4.3): X ← A (N, Z). -/
def tax_mutator (cpu : Cpu) : Cpu :=
  let r := set_register (cpu.accumulator % 256) cpu.flags
  { cpu with x_index := r.1, flags := r.2 }

/-- Modelled from the spec: the TAY mutator (§4.3): Y ← A (N, Z). -/
def tay_mutator (cpu : Cpu) : Cpu :=
  let r := set_register (cpu.accumulator % 256) cpu.flags
  { cpu with y_index := r.1, flags := r.2 }

/-- Modelled from the spec: the TXA mutator (§4.3): A ← X (N, Z). -/
def txa_mutator (cpu : Cpu) : Cpu :=
  let r := set_register (cpu.x_index % 256) cpu.flags
  { cpu with accumulator := r.1, flags := r.2 }

/-- Modelled from the spec: the TYA mutator (§4.3): A ← Y (N, Z). -/
def tya_mutator (cpu : Cpu) : Cpu :=
  let r := set_register (cpu.y_index % 256) cpu.flags
  { cpu with accumulator := r.1, flags := r.2 }

/-- Modelled from the spec: the TSX mutator (§4.3): X ← S (N, Z). -/
def tsx_mutator (cpu : Cpu) : Cpu :=
  let r := set_register (cpu.stack_pointer % 256) cpu.flags
  { cpu with x_index := r.1, flags := r.2 }

/-- Modelled from the spec: the TXS mutator (§4.3): S ← X, no flags. -/
def txs_mutator (cpu : Cpu) : Cpu :=
  { cpu with stack_pointer := cpu.x_index % 256 }

/-- Modelled from the spec: the INX mutator (§4.3): X ← X + 1 wrapping
(N, Z). -/
def inx_mutator (cpu : Cpu) : Cpu :=
  let r := set_register ((cpu.x_index % 256 + 1) % 256) cpu.flags
  { cpu with x_index := r.1, flags := r.2 }

/-- Modelled from the spec: the INY mutator (§4.3). -/
def iny_mutator (cpu : Cpu) : Cpu :=
  let r := set_register ((cpu.y_index % 256 + 1) % 256) cpu.flags
  { cpu with y_index := r.1, flags := r.2 }

/-- Modelled from the spec: the DEX mutator (§4.3): X ← X - 1 wrapping
(N, Z). -/
def dex_mutator (cpu : Cpu) : Cpu :=
  let r := set_register ((cpu.x_index % 256 + 255) % 256) cpu.flags
  { cpu with x_index := r.1, flags := r.2 }

/-- Modelled from the spec: the DEY mutator (§4.3). -/
def dey_mutator (cpu : Cpu) : Cpu :=
  let r := set_register ((cpu.y_index % 256 + 255) % 256) cpu.flags
  { cpu with y_index := r.1, flags := r.2 }

/-- Modelled from the spec: the CLC mutator (§4.3): clear CARRY. -/
def clc_mutator (cpu : Cpu) : Cpu :=
  { cpu with flags := { cpu.flags with carry := false } }

/-- Modelled from the spec: the SEC mutator (§4.3): set CARRY. -/
def sec_mutator (cpu : Cpu) : Cpu :=
  { cpu with flags := { cpu.flags with carry := true } }

/-- Modelled from the spec: the CLI mutator (§4.3). -/
def cli_mutator (cpu : Cpu) : Cpu :=
  { cpu with flags := { cpu.flags with interrupt_disable := false } }

/-- Modelled from the spec: the SEI mutator (§4.3). -/
def sei_mutator (cpu : Cpu) : Cpu :=
  { cpu with flags := { cpu.flags with interrupt_disable := true } }

/-- Modelled from the spec: the CLD mutator (§4.3). -/
def cld_mutator (cpu : Cpu) : Cpu :=
  { cpu with flags := { cpu.flags with decimal := false } }

/-- Modelled from the spec: the SED mutator (§4.3). -/
def sed_mutator (cpu : Cpu) : Cpu :=
  { cpu with flags := { cpu.flags with decimal := true } }

/-- Modelled from the spec: the CLV mutator (§4.3): clear OVERFLOW. -/
def clv_mutator (cpu : Cpu) : Cpu :=
  { cpu with flags := { cpu.flags with overflow := false } }

/-- Modelled from the spec: the NOP mutator (§4.3): nothing. -/
def nop_mutator (cpu : Cpu) : Cpu := cpu

/-- Modelled from the spec: the zero-page store template (§4.2.8, modules
not under `src/`): same cycle layout as the zero-page read, but the final
cycle writes `g(cpu)` to the effective address. -/
def store_zeropage (g : Cpu → Nat) (cpu : Cpu) (m : Mem) : Option StepOut :=
  if cpu.current_cycle = 1 then
    let r := fetch_from_pc cpu m
    some ⟨{ r.2.1 with effective_address := r.1 }, [r.2.2], false⟩
  else if cpu.current_cycle = 2 then
    some ⟨cpu, [.store (cpu.effective_address % 65536) (g cpu % 256)], true⟩
  else none

/-- Modelled from the spec: the zero-page indexed store template (§4.2.8):
cycle 2 is the mandatory dummy load and the 8-bit-wrapping index add, cycle
3 the store. -/
def store_zeropage_indexed (get_index : Cpu → Nat) (g : Cpu → Nat)
    (cpu : Cpu) (m : Mem) : Option StepOut :=
  if cpu.current_cycle = 1 then
    let r := fetch_from_pc cpu m
    some ⟨{ r.2.1 with effective_address := r.1 }, [r.2.2], false⟩
  else if cpu.current_cycle = 2 then
    some ⟨{ cpu with effective_address :=
              (cpu.effective_address % 256 + get_index cpu % 256) % 256 },
          [busLoad cpu.effective_address], false⟩
  else if cpu.current_cycle = 3 then
    some ⟨cpu, [.store (cpu.effective_address % 65536) (g cpu % 256)], true⟩
  else none

/-- Modelled from the spec: the absolute store template (§4.2.8). -/
def store_absolute (g : Cpu → Nat) (cpu : Cpu) (m : Mem) : Option StepOut :=
  if cpu.current_cycle = 1 then
    let r := fetch_from_pc cpu m
    some ⟨{ r.2.1 with effective_address := r.1 }, [r.2.2], false⟩
  else if cpu.current_cycle = 2 then
    let r := fetch_from_pc cpu m
    some ⟨{ r.2.1 with effective_address := r.2.1.effective_address ||| (r.1 <<< 8) },
          [r.2.2], false⟩
  else if cpu.current_cycle = 3 then
    some ⟨cpu, [.store (cpu.effective_address % 65536) (g cpu % 256)], true⟩
  else none

/-- Modelled from the spec: the absolute indexed store template (§4.2.8):
cycles 1-2 as the read template; cycle 3 always performs the dummy load at
the page-wrapped address and applies the carry fixup — stores never take
the early exit; cycle 4 writes at the (corrected) effective address. -/
def store_absolute_indexed (get_index : Cpu → Nat) (g : Cpu → Nat)
    (cpu : Cpu) (m : Mem) : Option StepOut :=
  if cpu.current_cycle = 1 then
    let r := fetch_from_pc cpu m
    some ⟨{ r.2.1 with effective_address := r.1 }, [r.2.2], false⟩
  else if cpu.current_cycle = 2 then
    let r := fetch_from_pc cpu m
    let cpu1 := r.2.1
    let lowSum := cpu1.effective_address % 256 + get_index cpu1 % 256
    some ⟨{ cpu1 with
              effective_address := (r.1 <<< 8) ||| (lowSum % 256),
              internal_flags := { cpu1.internal_flags with
                effective_addr_carry := decide (256 ≤ lowSum) } },
          [r.2.2], false⟩
  else if cpu.current_cycle = 3 then
    let _ := load8 m cpu.effective_address
    if cpu.internal_flags.effective_addr_carry then
      some ⟨{ cpu with effective_address := (cpu.effective_address + (1 <<< 8)) % 65536 },
            [busLoad cpu.effective_address], false⟩
    else
      some ⟨cpu, [busLoad cpu.effective_address], false⟩
  else if cpu.current_cycle = 4 then
    some ⟨cpu, [.store (cpu.effective_address % 65536) (g cpu % 256)], true⟩
  else none

/-- Modelled from the spec: the indirect,X store template (§4.2.8): cycles
1-4 as the read template, cycle 5 the store. -/
def store_indirect_x (g : Cpu → Nat) (cpu : Cpu) (m : Mem) : Option StepOut :=
  if cpu.current_cycle = 1 then
    let r := fetch_from_pc cpu m
    some ⟨{ r.2.1 with pointer_address := r.1 }, [r.2.2], false⟩
  else if cpu.current_cycle = 2 then
    some ⟨{ cpu with pointer_address :=
              (cpu.pointer_address % 256 + cpu.x_index % 256) % 256 },
          [busLoad (cpu.pointer_address % 256)], false⟩
  else if cpu.current_cycle = 3 then
    some ⟨{ cpu with effective_address := load8 m (cpu.pointer_address % 256) },
          [busLoad (cpu.pointer_address % 256)], false⟩
  else if cpu.current_cycle = 4 then
    some ⟨{ cpu with effective_address :=
              cpu.effective_address |||
                (load8 m ((cpu.pointer_address % 256 + 1) % 256) <<< 8) },
          [busLoad ((cpu.pointer_address % 256 + 1) % 256)], false⟩
  else if cpu.current_cycle = 5 then
    some ⟨cpu, [.store (cpu.effective_address % 65536) (g cpu % 256)], true⟩
  else none

/-- Modelled from the spec: the indirect,Y store template (§4.2.8): cycles
1-3 as the read template; cycle 4 always does the dummy load and carry
fixup (no early exit); cycle 5 the store. -/
def store_indirect_y (g : Cpu → Nat) (cpu : Cpu) (m : Mem) : Option StepOut :=
  if cpu.current_cycle = 1 then
    let r := fetch_from_pc cpu m
    some ⟨{ r.2.1 with pointer_address := r.1 }, [r.2.2], false⟩
  else if cpu.current_cycle = 2 then
    some ⟨{ cpu with effective_address := load8 m (cpu.pointer_address % 256) },
          [busLoad (cpu.pointer_address % 256)], false⟩
  else if cpu.current_cycle = 3 then
    let address_high_byte := load8 m ((cpu.pointer_address % 256 + 1) % 256)
    let lowSum := cpu.effective_address % 256 + cpu.y_index % 256
    some ⟨{ cpu with
              effective_address := (address_high_byte <<< 8) ||| (lowSum % 256),
              internal_flags := { cpu.internal_flags with
                effective_addr_carry := decide (256 ≤ lowSum) } },
          [busLoad ((cpu.pointer_address % 256 + 1) % 256)], false⟩
  else if cpu.current_cycle = 4 then
    let _ := load8 m cpu.effective_address
    if cpu.internal_flags.effective_addr_carry then
      some ⟨{ cpu with effective_address := (cpu.effective_address + (1 <<< 8)) % 65536 },
            [busLoad cpu.effective_address], false⟩
    else
      some ⟨cpu, [busLoad cpu.effective_address], false⟩
  else if cpu.current_cycle = 5 then
    some ⟨cpu, [.store (cpu.effective_address % 65536) (g cpu % 256)], true⟩
  else none

/-- A fatal failure of the core: a Rust panic.  `unimplemented` carries the
fixed diagnostic string of a bare `unimplemented!()`; `impossibleCycle`
models the `unreachable!()` hit when a template sees an out-of-contract
`current_cycle`. -/
inductive Fault where
  | unimplemented (diagnostic : String)
  | impossibleCycle
deriving DecidableEq

/-- Lift a template result into the dispatcher's fault monad: a `none`
(out-of-contract cycle, `unreachable!()`) is the fatal
`impossibleCycle`. -/
def liftTemplate (r : Option StepOut) : Except Fault StepOut :=
  match r with
  | some s => .ok s
  | none => .error .impossibleCycle

/-- The cycle-≥1 arm of `dispatch_current_opcode`: route by
`current_opcode` to the (mnemonic, mode) handler, mirroring the match of
`dispatch.rs` arm for arm.  The CMP and EOR `common` handlers are embedded
from the sources under `src/`; the other mnemonics' handlers, the store
templates and the single-byte template are the spec-modelled definitions
above (their instruction modules are not under `src/`).  The sentinel
`Unimplemented` arm is the `_ => unimplemented!()` panic. -/
def dispatchOpcode (op : OpCode) (cpu : Cpu) (m : Mem) : Except Fault StepOut :=
  let lift := liftTemplate
  match op with
  | .AdcImmediate => lift (immediate adc_common cpu m)
  | .AdcZeroPage => lift (zeropage adc_common cpu m)
  | .AdcZeroPageX => lift (zeropage_x adc_common cpu m)
  | .AdcAbsolute => lift (absolute adc_common cpu m)
  | .AdcAbsoluteX => lift (absolute_x adc_common cpu m)
  | .AdcAbsoluteY => lift (absolute_y adc_common cpu m)
  | .AdcIndirectX => lift (indirect_x adc_common cpu m)
  | .AdcIndirectY => lift (indirect_y adc_common cpu m)
  | .AndImmediate => lift (immediate and_common cpu m)
  | .AndZeroPage => lift (zeropage and_common cpu m)
  | .AndZeroPageX => lift (zeropage_x and_common cpu m)
  | .AndAbsolute => lift (absolute and_common cpu m)
  | .AndAbsoluteX => lift (absolute_x and_common cpu m)
  | .AndAbsoluteY => lift (absolute_y and_common cpu m)
  | .AndIndirectX => lift (indirect_x and_common cpu m)
  | .AndIndirectY => lift (indirect_y and_common cpu m)
  | .BitZeroPage => lift (zeropage bit_common cpu m)
  | .BitAbsolute => lift (absolute bit_common cpu m)
  | .Clc => lift (single_byte clc_mutator cpu m)
  | .Cld => lift (single_byte cld_mutator cpu m)
  | .Cli => lift (single_byte cli_mutator cpu m)
  | .Clv => lift (single_byte clv_mutator cpu m)
  | .CmpImmediate => lift (immediate cmp_common cpu m)
  | .CmpZeroPage => lift (zeropage cmp_common cpu m)
  | .CmpZeroPageX => lift (zeropage_x cmp_common cpu m)
  | .CmpAbsolute => lift (absolute cmp_common cpu m)
  | .CmpAbsoluteX => lift (absolute_x cmp_common cpu m)
  | .CmpAbsoluteY => lift (absolute_y cmp_common cpu m)
  | .CmpIndirectX => lift (indirect_x cmp_common cpu m)
  | .CmpIndirectY => lift (indirect_y cmp_common cpu m)
  | .Dex => lift (single_byte dex_mutator cpu m)
  | .Dey => lift (single_byte dey_mutator cpu m)
  | .EorImmediate => lift (immediate eor_common cpu m)
  | .EorZeroPage => lift (zeropage eor_common cpu m)
  | .EorZeroPageX => lift (zeropage_x eor_common cpu m)
  | .EorAbsolute => lift (absolute eor_common cpu m)
  | .EorAbsoluteX => lift (absolute_x eor_common cpu m)
  | .EorAbsoluteY => lift (absolute_y eor_common cpu m)
  | .EorIndirectX => lift (indirect_x eor_common cpu m)
  | .EorIndirectY => lift (indirect_y eor_common cpu m)
  | .Inx => lift (single_byte inx_mutator cpu m)
  | .Iny => lift (single_byte iny_mutator cpu m)
  | .LdaImmediate => lift (immediate lda_common cpu m)
  | .LdaZeroPage => lift (zeropage lda_common cpu m)
  | .LdaZeroPageX => lift (zeropage_x lda_common cpu m)
  | .LdaAbsolute => lift (absolute lda_common cpu m)
  | .LdaAbsoluteX => lift (absolute_x lda_common cpu m)
  | .LdaAbsoluteY => lift (absolute_y lda_common cpu m)
  | .LdaIndirectX => lift (indirect_x lda_common cpu m)
  | .LdaIndirectY => lift (indirect_y lda_common cpu m)
  | .LdxImmediate => lift (immediate ldx_common cpu m)
  | .LdxZeroPage => lift (zeropage ldx_common cpu m)
  | .LdxZeroPageY => lift (zeropage_y ldx_common cpu m)
  | .LdxAbsolute => lift (absolute ldx_common cpu m)
  | .LdxAbsoluteY => lift (absolute_y ldx_common cpu m)
  | .LdyImmediate => lift (immediate ldy_common cpu m)
  | .LdyZeroPage => lift (zeropage ldy_common cpu m)
  | .LdyZeroPageX => lift (zeropage_x ldy_common cpu m)
  | .LdyAbsolute => lift (absolute ldy_common cpu m)
  | .LdyAbsoluteX => lift (absolute_x ldy_common cpu m)
  | .Nop => lift (single_byte nop_mutator cpu m)
  | .OraImmediate => lift (immediate ora_common cpu m)
  | .OraZeroPage => lift (zeropage ora_common cpu m)
  | .OraZeroPageX => lift (zeropage_x ora_common cpu m)
  | .OraAbsolute => lift (absolute ora_common cpu m)
  | .OraAbsoluteX => lift (absolute_x ora_common cpu m)
  | .OraAbsoluteY => lift (absolute_y ora_common cpu m)
  | .OraIndirectX => lift (indirect_x ora_common cpu m)
  | .OraIndirectY => lift (indirect_y ora_common cpu m)
  | .SbcImmediate => lift (immediate sbc_common cpu m)
  | .SbcZeroPage => lift (zeropage sbc_common cpu m)
  | .SbcZeroPageX => lift (zeropage_x sbc_common cpu m)
  | .SbcAbsolute => lift (absolute sbc_common cpu m)
  | .SbcAbsoluteX => lift (absolute_x sbc_common cpu m)
  | .SbcAbsoluteY => lift (absolute_y sbc_common cpu m)
  | .SbcIndirectX => lift (indirect_x sbc_common cpu m)
  | .SbcIndirectY => lift (indirect_y sbc_common cpu m)
  | .Sec => lift (single_byte sec_mutator cpu m)
  | .Sed => lift (single_byte sed_mutator cpu m)
  | .Sei => lift (single_byte sei_mutator cpu m)
  | .StaZeroPage => lift (store_zeropage sta_value cpu m)
  | .StaZeroPageX => lift (store_zeropage_indexed get_x_index sta_value cpu m)
  | .StaAbsolute => lift (store_absolute sta_value cpu m)
  | .StaAbsoluteX => lift (store_absolute_indexed get_x_index sta_value cpu m)
  | .StaAbsoluteY => lift (store_absolute_indexed get_y_index sta_value cpu m)
  | .StaIndirectX => lift (store_indirect_x sta_value cpu m)
  | .StaIndirectY => lift (store_indirect_y sta_value cpu m)
  | .StxZeroPage => lift (store_zeropage stx_value cpu m)
  | .StxZeroPageY => lift (store_zeropage_indexed get_y_index stx_value cpu m)
  | .StxAbsolute => lift (store_absolute stx_value cpu m)
  | .StyZeroPage => lift (store_zeropage sty_value cpu m)
  | .StyZeroPageX => lift (store_zeropage_indexed get_x_index sty_value cpu m)
  | .StyAbsolute => lift (store_absolute sty_value cpu m)
  | .Tax => lift (single_byte tax_mutator cpu m)
  | .Tay => lift (single_byte tay_mutator cpu m)
  | .Tsx => lift (single_byte tsx_mutator cpu m)
  | .Txa => lift (single_byte txa_mutator cpu m)
  | .Txs => lift (single_byte txs_mutator cpu m)
  | .Tya => lift (single_byte tya_mutator cpu m)
  | .Unimplemented => .error (.unimplemented "not implemented")

/-- `dispatch.rs::dispatch_current_opcode`: on cycle 0 fetch the opcode
byte at `PC`, decode it into `current_opcode` and continue; on any later
cycle route to the per-opcode handler. -/
def dispatch_current_opcode (cpu : Cpu) (m : Mem) : Except Fault StepOut :=
  if cpu.current_cycle = 0 then
    let r := fetch_from_pc cpu m
    .ok ⟨{ r.2.1 with current_opcode := opcodeFromByte r.1 }, [r.2.2], false⟩
  else
    dispatchOpcode cpu.current_opcode cpu m

/-- Apply a `Memory::store` to the byte store: writes the byte at the
`u16` address; loads leave memory unchanged. -/
def applyOp (m : Mem) (op : BusOp) : Mem :=
  match op with
  | .load _ => m
  | .store a v => fun x => if x = a % 65536 then v % 256 else m x

/-- Apply a cycle's bus transactions to memory in order. -/
def applyOps (m : Mem) (ops : List BusOp) : Mem := ops.foldl applyOp m

/-- Modelled from the spec: the caller's stepping discipline
(`step_cycle`, §4.1/§6.2, not under `src/`): invoke the dispatcher once;
on "break" reset `current_cycle` to 0, on "continue" increment it. -/
def step_cycle (cpu : Cpu) (m : Mem) : Except Fault (Cpu × List BusOp) :=
  match dispatch_current_opcode cpu m with
  | .error e => .error e
  | .ok s =>
    if s.isBreak then .ok ({ s.cpu with current_cycle := 0 }, s.ops)
    else .ok ({ s.cpu with current_cycle := s.cpu.current_cycle + 1 }, s.ops)

/-- Iterate `step_cycle` for `n` bus cycles, applying each cycle's bus
transactions to memory, stopping at the first fault. -/
def runSteps : Nat → Cpu → Mem → Except Fault Cpu
  | 0, cpu, _ => .ok cpu
  | n + 1, cpu, m =>
    match step_cycle cpu m with
    | .error e => .error e
    | .ok r => runSteps n r.1 (applyOps m r.2)

/-- Drive a single addressing-mode template under the §4.1 stepping
discipline, starting at the template's current cycle: invoke it, increment
`current_cycle` on "continue", stop on "break".  Returns the final CPU, the
concatenated bus trace and the number of template invocations performed;
`none` on an out-of-contract cycle or fuel exhaustion. -/
def runTemplate (T : Cpu → Mem → Option StepOut) :
    Nat → Cpu → Mem → Option (Cpu × List BusOp × Nat)
  | 0, _, _ => none
  | fuel + 1, cpu, m =>
    match T cpu m with
    | none => none
    | some s =>
      if s.isBreak then some (s.cpu, s.ops, 1)
      else
        match runTemplate T fuel { s.cpu with current_cycle := s.cpu.current_cycle + 1 } m with
        | none => none
        | some (c, tr, k) => some (c, s.ops ++ tr, k + 1)

/-- Run the dispatcher under the §4.1 stepping discipline until the current
instruction completes (the dispatcher reports "break").  Returns the final
CPU (with `current_cycle` reset to 0) and the number of dispatcher
invocations taken; `none` on a fault or fuel exhaustion.  Each cycle's bus
transactions are applied to memory before the next cycle. -/
def runInstruction : Nat → Cpu → Mem → Option (Cpu × Nat)
  | 0, _, _ => none
  | fuel + 1, cpu, m =>
    match dispatch_current_opcode cpu m with
    | .error _ => none
    | .ok s =>
      if s.isBreak then some ({ s.cpu with current_cycle := 0 }, 1)
      else
        match runInstruction fuel { s.cpu with current_cycle := s.cpu.current_cycle + 1 }
            (applyOps m s.ops) with
        | none => none
        | some (c, k) => some (c, k + 1)

/-- An all-set status register, used by concrete witness states. -/
def flagsAllSet : StatusFlags := ⟨true, true, true, true, true, true, true, true⟩

/-- A concrete base CPU state for witnesses: registers loaded, at cycle 0,
PC = 0x0200, scratch cleared. -/
def cpuBase : Cpu :=
  { accumulator := 0x42, x_index := 1, y_index := 1, stack_pointer := 0xFD,
    program_counter := 0x0200, flags := flagsAllSet,
    current_opcode := .Unimplemented, current_cycle := 0,
    effective_address := 0, pointer_address := 0,
    internal_flags := ⟨false⟩ }

/-- An all-zero memory, used by concrete witness states. -/
def memZero : Mem := fun _ => 0

/-- C4: at cycle 4 of the indirect,X read template the high byte of the
effective address is loaded from `(pointer_address + 1) mod 256`: the
pointer increment wraps within the zero page, so a pointer of `0xFF` reads
its high byte from address `0x0000`, not `0x0100`. -/
theorem indirect_x_pointer_high_byte_wraps (f : Cpu → Nat → Cpu) (cpu : Cpu)
    (m : Mem) (h : cpu.current_cycle = 4) :
    indirect_x f cpu m =
      some ⟨{ cpu with effective_address :=
                cpu.effective_address |||
                  (load8 m ((cpu.pointer_address % 256 + 1) % 256) <<< 8) },
            [busLoad ((cpu.pointer_address % 256 + 1) % 256)], false⟩ ∧
    (cpu.pointer_address % 256 = 255 →
      indirect_x f cpu m =
        some ⟨{ cpu with effective_address :=
                  cpu.effective_address ||| (load8 m 0 <<< 8) },
              [busLoad 0], false⟩) := by
  constructor
  · simp [indirect_x, h]
  · intro hp
    simp [indirect_x, h, hp]

/-- Witness for C4: concrete cycle-4 state with pointer `0xFF`; the high
byte is loaded from address 0. -/
theorem indirect_x_pointer_high_byte_wraps_witness :
    indirect_x cmp_common
        { cpuBase with current_cycle := 4, pointer_address := 0xFF,
                       effective_address := 0x34 } memZero =
      some ⟨{ cpuBase with current_cycle := 4, pointer_address := 0xFF,
                           effective_address :=
                             0x34 ||| (load8 memZero 0 <<< 8) },
            [busLoad 0], false⟩ :=
  (indirect_x_pointer_high_byte_wraps cmp_common
      { cpuBase with current_cycle := 4, pointer_address := 0xFF,
                     effective_address := 0x34 } memZero rfl).2 (by decide)

/-- C10: in the absolute-indexed and indirect,Y read templates the
page-cross fixup adds `0x100` with 16-bit wraparound
(`wrapping_add(1 << 8)`): from a pre-fixup effective address in page `0xFF`
with the low-byte carry recorded, the template continues (no fault) with a
corrected effective address below `0x100`, i.e. in page `0x00` — the
subsequent corrected load stays inside the 16-bit address space. -/
theorem page_cross_fixup_wraps_mod_u16 (get_index : Cpu → Nat)
    (f : Cpu → Nat → Cpu) (cpu : Cpu) (m : Mem)
    (hc : cpu.internal_flags.effective_addr_carry = true)
    (hlt : cpu.effective_address < 65536)
    (hpage : 0xFF00 ≤ cpu.effective_address) :
    (cpu.current_cycle = 3 →
      absolute_indexed get_index f cpu m =
        some ⟨{ cpu with effective_address :=
                  (cpu.effective_address + (1 <<< 8)) % 65536 },
              [busLoad cpu.effective_address], false⟩) ∧
    (cpu.current_cycle = 4 →
      indirect_y f cpu m =
        some ⟨{ cpu with effective_address :=
                  (cpu.effective_address + (1 <<< 8)) % 65536 },
              [busLoad cpu.effective_address], false⟩) ∧
    (cpu.effective_address + (1 <<< 8)) % 65536 < 0x100 := by
  refine ⟨fun h3 => ?_, fun h4 => ?_, ?_⟩
  · simp [absolute_indexed, h3, hc]
  · simp [indirect_y, h4, hc]
  · have h : (1 : Nat) <<< 8 = 256 := rfl
    rw [h]
    omega

/-- Witness for C10: a concrete cycle-3 absolute-indexed state with
effective address `0xFF42` and the page-cross carry set: the fixup lands at
`0x0042`. -/
theorem page_cross_fixup_wraps_mod_u16_witness :
    absolute_indexed get_x_index eor_common
        { cpuBase with current_cycle := 3, effective_address := 0xFF42,
                       internal_flags := ⟨true⟩ } memZero =
      some ⟨{ cpuBase with current_cycle := 3, effective_address := 0x42,
                           internal_flags := ⟨true⟩ },
            [busLoad 0xFF42], false⟩ ∧
    (0x42 : Nat) < 0x100 := by
  have h := page_cross_fixup_wraps_mod_u16 get_x_index eor_common
    { cpuBase with current_cycle := 3, effective_address := 0xFF42,
                   internal_flags := ⟨true⟩ } memZero
    (by decide) (by decide) (by decide)
  exact ⟨by simpa using h.1 rfl, by decide⟩

/-- Bit 7 of a byte is set exactly when the byte is at least 128. -/
theorem byte_testBit_seven (x : Nat) (hx : x < 256) :
    x.testBit 7 = decide (128 ≤ x) := by
  rw [Nat.testBit_to_div_mod]
  rw [decide_eq_decide]
  omega

/-- The concrete state for the CMP-immediate scenario: A = 0x42, flags
biased against the expected outcome (Z = 0, C = 0, N = 1). -/
def cpuCmpScenario : Cpu :=
  { cpuBase with
      flags := { flagsAllSet with zero := false, carry := false } }

/-- The concrete program for the CMP-immediate scenario:
`[0xC9, 0x42]` at `PC = 0x0200`. -/
def memCmpScenario : Mem := fun a =>
  if a = 0x0200 then 0xC9 else if a = 0x0201 then 0x42 else 0

/-- C2: for every accumulator byte and operand byte, CMP sets CARRY iff
`A ≥ M`, ZERO iff `A = M`, NEGATIVE to bit 7 of the wrapped 8-bit
difference `A - M`, and does not modify the accumulator.  In particular the
concrete instruction `[0xC9, 0x42]` with `A = 0x42` completes after 2
dispatcher invocations with `Z = 1`, `C = 1`, `N = 0` and `A` unchanged. -/
theorem cmp_flag_semantics :
    (∀ (cpu : Cpu) (value : Nat), cpu.accumulator < 256 → value < 256 →
      ((cmp_common cpu value).flags.carry = true ↔ value ≤ cpu.accumulator) ∧
      ((cmp_common cpu value).flags.zero = true ↔ cpu.accumulator = value) ∧
      ((cmp_common cpu value).flags.negative =
        ((cpu.accumulator + 256 - value) % 256).testBit 7) ∧
      (cmp_common cpu value).accumulator = cpu.accumulator) ∧
    runInstruction 8 cpuCmpScenario memCmpScenario =
      some ({ cpuCmpScenario with
                program_counter := 0x0202,
                current_opcode := .CmpImmediate,
                flags := { cpuCmpScenario.flags with
                             zero := true, carry := true, negative := false } },
            2) := by
  constructor
  · intro cpu value ha hv
    refine ⟨?_, ?_, ?_, rfl⟩
    · simp only [cmp_common, sub_with_carry, Nat.mod_eq_of_lt ha,
        Nat.mod_eq_of_lt hv, if_true]
      rw [decide_eq_true_iff]
      omega
    · simp only [cmp_common, sub_with_carry, Nat.mod_eq_of_lt ha,
        Nat.mod_eq_of_lt hv, if_true]
      rw [decide_eq_true_iff]
      omega
    · simp only [cmp_common, sub_with_carry, Nat.mod_eq_of_lt ha,
        Nat.mod_eq_of_lt hv, if_true]
      rw [byte_testBit_seven _ (by omega)]
      rw [decide_eq_decide]
      omega
  · decide

/-- Witness for C2: the universally quantified part instantiated at
`A = 0x42`, operand `0x41`. -/
theorem cmp_flag_semantics_witness :
    ((cmp_common cpuBase 65).flags.carry = true ↔ 65 ≤ cpuBase.accumulator) ∧
    ((cmp_common cpuBase 65).flags.zero = true ↔ cpuBase.accumulator = 65) ∧
    ((cmp_common cpuBase 65).flags.negative =
      ((cpuBase.accumulator + 256 - 65) % 256).testBit 7) ∧
    (cmp_common cpuBase 65).accumulator = cpuBase.accumulator :=
  cmp_flag_semantics.1 cpuBase 65 (by decide) (by decide)

/-- C3: for the zero-page,X and zero-page,Y read templates, for every
operand byte and every index value, the full run after the opcode fetch
(cycles 1-3) performs the fetch, the dummy load at the unindexed operand
address, and the final load at `(operand + index) mod 256` — an effective
address that is always at most `0xFF`: the index addition wraps modulo 256
and never carries into the high byte. -/
theorem zeropage_indexed_stays_in_zeropage (f : Cpu → Nat → Cpu) (cpu : Cpu)
    (m : Mem) (h : cpu.current_cycle = 1) :
    (runTemplate (zeropage_x f) 4 cpu m =
      some (f { cpu with
                  program_counter := (cpu.program_counter + 1) % 65536,
                  effective_address :=
                    (load8 m cpu.program_counter % 256 + cpu.x_index % 256) % 256,
                  current_cycle := 3 }
              (load8 m
                ((load8 m cpu.program_counter % 256 + cpu.x_index % 256) % 256)),
            [busLoad cpu.program_counter,
             busLoad (load8 m cpu.program_counter),
             busLoad ((load8 m cpu.program_counter % 256 + cpu.x_index % 256) % 256)],
            3) ∧
      (load8 m cpu.program_counter % 256 + cpu.x_index % 256) % 256 < 256) ∧
    (runTemplate (zeropage_y f) 4 cpu m =
      some (f { cpu with
                  program_counter := (cpu.program_counter + 1) % 65536,
                  effective_address :=
                    (load8 m cpu.program_counter % 256 + cpu.y_index % 256) % 256,
                  current_cycle := 3 }
              (load8 m
                ((load8 m cpu.program_counter % 256 + cpu.y_index % 256) % 256)),
            [busLoad cpu.program_counter,
             busLoad (load8 m cpu.program_counter),
             busLoad ((load8 m cpu.program_counter % 256 + cpu.y_index % 256) % 256)],
            3) ∧
      (load8 m cpu.program_counter % 256 + cpu.y_index % 256) % 256 < 256) := by
  refine ⟨⟨?_, by omega⟩, ⟨?_, by omega⟩⟩
  · simp [runTemplate, zeropage_x, zeropage_indexed, fetch_from_pc,
      get_x_index, h]
  · simp [runTemplate, zeropage_y, zeropage_indexed, fetch_from_pc,
      get_y_index, h]

/-- Concrete cycle-1 state for the zero-page witness: X = 0xD0. -/
def cpuZpWitness : Cpu := { cpuBase with current_cycle := 1, x_index := 0xD0 }

/-- Concrete memory for the zero-page witness: operand byte 0x85, all other
cells 0x99; the indexed address wraps to `(0x85 + 0xD0) mod 256 = 0x55`. -/
def memZpWitness : Mem := fun a => if a = 0x0200 then 0x85 else 0x99

/-- Witness for C3: the zero-page,X half at the concrete state. -/
theorem zeropage_indexed_stays_in_zeropage_witness :
    (runTemplate (zeropage_x eor_common) 4 cpuZpWitness memZpWitness =
      some (eor_common
              { cpuZpWitness with
                  program_counter := (cpuZpWitness.program_counter + 1) % 65536,
                  effective_address :=
                    (load8 memZpWitness cpuZpWitness.program_counter % 256 +
                      cpuZpWitness.x_index % 256) % 256,
                  current_cycle := 3 }
              (load8 memZpWitness
                ((load8 memZpWitness cpuZpWitness.program_counter % 256 +
                   cpuZpWitness.x_index % 256) % 256)),
            [busLoad cpuZpWitness.program_counter,
             busLoad (load8 memZpWitness cpuZpWitness.program_counter),
             busLoad ((load8 memZpWitness cpuZpWitness.program_counter % 256 +
                        cpuZpWitness.x_index % 256) % 256)],
            3) ∧
      (load8 memZpWitness cpuZpWitness.program_counter % 256 +
        cpuZpWitness.x_index % 256) % 256 < 256) :=
  (zeropage_indexed_stays_in_zeropage eor_common cpuZpWitness memZpWitness rfl).1

/-- C1: for the absolute,X and absolute,Y read templates, after the low and
high operand bytes are fetched (cycles 1-2) the cycle-3 load is performed
at the page-wrapped address — high byte as fetched, low byte
`(low + index) mod 256`.  If the low-byte addition produced no carry the
handler is invoked with that loaded value and the template breaks after 3
invocations (4 cycles including the opcode fetch); otherwise the loaded
value is discarded, `0x100` is added to the effective address, and the
cycle-4 load at the corrected address supplies the handler value, breaking
after 4 invocations (5 cycles including the opcode fetch). -/
theorem absolute_indexed_read_cycles (f : Cpu → Nat → Cpu) (cpu : Cpu)
    (m : Mem) (h : cpu.current_cycle = 1) :
    (load8 m cpu.program_counter % 256 + cpu.x_index % 256 < 256 →
      runTemplate (absolute_x f) 5 cpu m =
        some (f { cpu with
                    program_counter :=
                      ((cpu.program_counter + 1) % 65536 + 1) % 65536,
                    effective_address :=
                      (load8 m ((cpu.program_counter + 1) % 65536) <<< 8) |||
                        ((load8 m cpu.program_counter % 256 +
                           cpu.x_index % 256) % 256),
                    internal_flags := { cpu.internal_flags with
                                          effective_addr_carry := false },
                    current_cycle := 3 }
                (load8 m
                  ((load8 m ((cpu.program_counter + 1) % 65536) <<< 8) |||
                    ((load8 m cpu.program_counter % 256 +
                       cpu.x_index % 256) % 256))),
              [busLoad cpu.program_counter,
               busLoad ((cpu.program_counter + 1) % 65536),
               busLoad ((load8 m ((cpu.program_counter + 1) % 65536) <<< 8) |||
                 ((load8 m cpu.program_counter % 256 + cpu.x_index % 256) % 256))],
              3)) ∧
    (256 ≤ load8 m cpu.program_counter % 256 + cpu.x_index % 256 →
      runTemplate (absolute_x f) 5 cpu m =
        some (f { cpu with
                    program_counter :=
                      ((cpu.program_counter + 1) % 65536 + 1) % 65536,
                    effective_address :=
                      (((load8 m ((cpu.program_counter + 1) % 65536) <<< 8) |||
                         ((load8 m cpu.program_counter % 256 +
                            cpu.x_index % 256) % 256)) + (1 <<< 8)) % 65536,
                    internal_flags := { cpu.internal_flags with
                                          effective_addr_carry := true },
                    current_cycle := 4 }
                (load8 m
                  ((((load8 m ((cpu.program_counter + 1) % 65536) <<< 8) |||
                      ((load8 m cpu.program_counter % 256 +
                         cpu.x_index % 256) % 256)) + (1 <<< 8)) % 65536)),
              [busLoad cpu.program_counter,
               busLoad ((cpu.program_counter + 1) % 65536),
               busLoad ((load8 m ((cpu.program_counter + 1) % 65536) <<< 8) |||
                 ((load8 m cpu.program_counter % 256 + cpu.x_index % 256) % 256)),
               busLoad ((((load8 m ((cpu.program_counter + 1) % 65536) <<< 8) |||
                  ((load8 m cpu.program_counter % 256 +
                     cpu.x_index % 256) % 256)) + (1 <<< 8)) % 65536)],
              4)) ∧
    (load8 m cpu.program_counter % 256 + cpu.y_index % 256 < 256 →
      runTemplate (absolute_y f) 5 cpu m =
        some (f { cpu with
                    program_counter :=
                      ((cpu.program_counter + 1) % 65536 + 1) % 65536,
                    effective_address :=
                      (load8 m ((cpu.program_counter + 1) % 65536) <<< 8) |||
                        ((load8 m cpu.program_counter % 256 +
                           cpu.y_index % 256) % 256),
                    internal_flags := { cpu.internal_flags with
                                          effective_addr_carry := false },
                    current_cycle := 3 }
                (load8 m
                  ((load8 m ((cpu.program_counter + 1) % 65536) <<< 8) |||
                    ((load8 m cpu.program_counter % 256 +
                       cpu.y_index % 256) % 256))),
              [busLoad cpu.program_counter,
               busLoad ((cpu.program_counter + 1) % 65536),
               busLoad ((load8 m ((cpu.program_counter + 1) % 65536) <<< 8) |||
                 ((load8 m cpu.program_counter % 256 + cpu.y_index % 256) % 256))],
              3)) ∧
    (256 ≤ load8 m cpu.program_counter % 256 + cpu.y_index % 256 →
      runTemplate (absolute_y f) 5 cpu m =
        some (f { cpu with
                    program_counter :=
                      ((cpu.program_counter + 1) % 65536 + 1) % 65536,
                    effective_address :=
                      (((load8 m ((cpu.program_counter + 1) % 65536) <<< 8) |||
                         ((load8 m cpu.program_counter % 256 +
                            cpu.y_index % 256) % 256)) + (1 <<< 8)) % 65536,
                    internal_flags := { cpu.internal_flags with
                                          effective_addr_carry := true },
                    current_cycle := 4 }
                (load8 m
                  ((((load8 m ((cpu.program_counter + 1) % 65536) <<< 8) |||
                      ((load8 m cpu.program_counter % 256 +
                         cpu.y_index % 256) % 256)) + (1 <<< 8)) % 65536)),
              [busLoad cpu.program_counter,
               busLoad ((cpu.program_counter + 1) % 65536),
               busLoad ((load8 m ((cpu.program_counter + 1) % 65536) <<< 8) |||
                 ((load8 m cpu.program_counter % 256 + cpu.y_index % 256) % 256)),
               busLoad ((((load8 m ((cpu.program_counter + 1) % 65536) <<< 8) |||
                  ((load8 m cpu.program_counter % 256 +
                     cpu.y_index % 256) % 256)) + (1 <<< 8)) % 65536)],
              4)) := by
  refine ⟨fun hx => ?_, fun hx => ?_, fun hy => ?_, fun hy => ?_⟩
  · have hd : decide (256 ≤ load8 m cpu.program_counter % 256 +
        cpu.x_index % 256) = false := decide_eq_false (by omega)
    simp [runTemplate, absolute_x, absolute_indexed, fetch_from_pc,
      get_x_index, h, hd]
  · have hd : decide (256 ≤ load8 m cpu.program_counter % 256 +
        cpu.x_index % 256) = true := decide_eq_true hx
    simp [runTemplate, absolute_x, absolute_indexed, fetch_from_pc,
      get_x_index, h, hd]
  · have hd : decide (256 ≤ load8 m cpu.program_counter % 256 +
        cpu.y_index % 256) = false := decide_eq_false (by omega)
    simp [runTemplate, absolute_y, absolute_indexed, fetch_from_pc,
      get_y_index, h, hd]
  · have hd : decide (256 ≤ load8 m cpu.program_counter % 256 +
        cpu.y_index % 256) = true := decide_eq_true hy
    simp [runTemplate, absolute_y, absolute_indexed, fetch_from_pc,
      get_y_index, h, hd]

/-- Concrete cycle-1 state for the absolute-indexed witness: X = 1. -/
def cpuAbsWitness : Cpu := { cpuBase with current_cycle := 1 }

/-- Concrete memory for the absolute-indexed witness: operands low `0xFF`,
high `0x02` (base address `0x02FF`), so indexing by X = 1 crosses into page
`0x03`. -/
def memAbsWitness : Mem := fun a =>
  if a = 0x0200 then 0xFF else if a = 0x0201 then 0x02 else 0xAB

/-- Witness for C1: the page-crossing absolute,X conjunct at the concrete
state — 4 template invocations (5 cycles with the opcode fetch). -/
theorem absolute_indexed_read_cycles_witness :
    runTemplate (absolute_x eor_common) 5 cpuAbsWitness memAbsWitness =
      some (eor_common
              { cpuAbsWitness with
                  program_counter :=
                    ((cpuAbsWitness.program_counter + 1) % 65536 + 1) % 65536,
                  effective_address :=
                    (((load8 memAbsWitness
                         ((cpuAbsWitness.program_counter + 1) % 65536) <<< 8) |||
                       ((load8 memAbsWitness cpuAbsWitness.program_counter % 256 +
                          cpuAbsWitness.x_index % 256) % 256)) + (1 <<< 8)) % 65536,
                  internal_flags := { cpuAbsWitness.internal_flags with
                                        effective_addr_carry := true },
                  current_cycle := 4 }
              (load8 memAbsWitness
                ((((load8 memAbsWitness
                      ((cpuAbsWitness.program_counter + 1) % 65536) <<< 8) |||
                    ((load8 memAbsWitness cpuAbsWitness.program_counter % 256 +
                       cpuAbsWitness.x_index % 256) % 256)) + (1 <<< 8)) % 65536)),
            [busLoad cpuAbsWitness.program_counter,
             busLoad ((cpuAbsWitness.program_counter + 1) % 65536),
             busLoad ((load8 memAbsWitness
                 ((cpuAbsWitness.program_counter + 1) % 65536) <<< 8) |||
               ((load8 memAbsWitness cpuAbsWitness.program_counter % 256 +
                  cpuAbsWitness.x_index % 256) % 256)),
             busLoad ((((load8 memAbsWitness
                  ((cpuAbsWitness.program_counter + 1) % 65536) <<< 8) |||
                ((load8 memAbsWitness cpuAbsWitness.program_counter % 256 +
                   cpuAbsWitness.x_index % 256) % 256)) + (1 <<< 8)) % 65536)],
            4) :=
  (absolute_indexed_read_cycles eor_common cpuAbsWitness memAbsWitness
      rfl).2.1 (by decide)

/-- A successful `liftTemplate` comes from a successful template. -/
theorem liftTemplate_ok (r : Option StepOut) (s : StepOut)
    (h : liftTemplate r = .ok s) : r = some s := by
  cases r <;> simp_all [liftTemplate]

/-- Each successful `immediate` invocation performs exactly one bus
transaction. -/
theorem immediate_single_op (f : Cpu → Nat → Cpu) (cpu : Cpu) (m : Mem)
    (s : StepOut) (h : immediate f cpu m = some s) : s.ops.length = 1 := by
  unfold immediate at h
  split_ifs at h <;> (injection h with h2; subst h2; rfl)

/-- Each successful `zeropage` invocation performs exactly one bus
transaction. -/
theorem zeropage_single_op (f : Cpu → Nat → Cpu) (cpu : Cpu) (m : Mem)
    (s : StepOut) (h : zeropage f cpu m = some s) : s.ops.length = 1 := by
  unfold zeropage at h
  split_ifs at h <;> (injection h with h2; subst h2; rfl)

/-- Each successful `zeropage_indexed` invocation performs exactly one bus
transaction (the cycle-2 dummy read included). -/
theorem zeropage_indexed_single_op (gi : Cpu → Nat) (f : Cpu → Nat → Cpu)
    (cpu : Cpu) (m : Mem) (s : StepOut)
    (h : zeropage_indexed gi f cpu m = some s) : s.ops.length = 1 := by
  unfold zeropage_indexed at h
  split_ifs at h <;> (injection h with h2; subst h2; rfl)

/-- Each successful `absolute` invocation performs exactly one bus
transaction. -/
theorem absolute_single_op (f : Cpu → Nat → Cpu) (cpu : Cpu) (m : Mem)
    (s : StepOut) (h : absolute f cpu m = some s) : s.ops.length = 1 := by
  unfold absolute at h
  split_ifs at h <;> (injection h with h2; subst h2; rfl)

/-- Each successful `absolute_indexed` invocation performs exactly one bus
transaction (the discarded page-wrapped read included). -/
theorem absolute_indexed_single_op (gi : Cpu → Nat) (f : Cpu → Nat → Cpu)
    (cpu : Cpu) (m : Mem) (s : StepOut)
    (h : absolute_indexed gi f cpu m = some s) : s.ops.length = 1 := by
  unfold absolute_indexed at h
  split_ifs at h <;> (injection h with h2; subst h2; rfl)

/-- Each successful `indirect_x` invocation performs exactly one bus
transaction. -/
theorem indirect_x_single_op (f : Cpu → Nat → Cpu) (cpu : Cpu) (m : Mem)
    (s : StepOut) (h : indirect_x f cpu m = some s) : s.ops.length = 1 := by
  unfold indirect_x at h
  split_ifs at h <;> (injection h with h2; subst h2; rfl)

/-- Each successful `indirect_y` invocation performs exactly one bus
transaction. -/
theorem indirect_y_single_op (f : Cpu → Nat → Cpu) (cpu : Cpu) (m : Mem)
    (s : StepOut) (h : indirect_y f cpu m = some s) : s.ops.length = 1 := by
  unfold indirect_y at h
  split_ifs at h <;> (injection h with h2; subst h2; rfl)

/-- Each successful `single_byte` invocation performs exactly one bus
transaction (the mandatory dummy read). -/
theorem single_byte_single_op (f : Cpu → Cpu) (cpu : Cpu) (m : Mem)
    (s : StepOut) (h : single_byte f cpu m = some s) : s.ops.length = 1 := by
  unfold single_byte at h
  split_ifs at h <;> (injection h with h2; subst h2; rfl)

/-- Each successful `store_zeropage` invocation performs exactly one bus
transaction. -/
theorem store_zeropage_single_op (g : Cpu → Nat) (cpu : Cpu) (m : Mem)
    (s : StepOut) (h : store_zeropage g cpu m = some s) : s.ops.length = 1 := by
  unfold store_zeropage at h
  split_ifs at h <;> (injection h with h2; subst h2; rfl)

/-- Each successful `store_zeropage_indexed` invocation performs exactly
one bus transaction. -/
theorem store_zeropage_indexed_single_op (gi : Cpu → Nat) (g : Cpu → Nat)
    (cpu : Cpu) (m : Mem) (s : StepOut)
    (h : store_zeropage_indexed gi g cpu m = some s) : s.ops.length = 1 := by
  unfold store_zeropage_indexed at h
  split_ifs at h <;> (injection h with h2; subst h2; rfl)

/-- Each successful `store_absolute` invocation performs exactly one bus
transaction. -/
theorem store_absolute_single_op (g : Cpu → Nat) (cpu : Cpu) (m : Mem)
    (s : StepOut) (h : store_absolute g cpu m = some s) : s.ops.length = 1 := by
  unfold store_absolute at h
  split_ifs at h <;> (injection h with h2; subst h2; rfl)

/-- Each successful `store_absolute_indexed` invocation performs exactly
one bus transaction (the always-taken dummy read included). -/
theorem store_absolute_indexed_single_op (gi : Cpu → Nat) (g : Cpu → Nat)
    (cpu : Cpu) (m : Mem) (s : StepOut)
    (h : store_absolute_indexed gi g cpu m = some s) : s.ops.length = 1 := by
  unfold store_absolute_indexed at h
  split_ifs at h <;> (injection h with h2; subst h2; rfl)

/-- Each successful `store_indirect_x` invocation performs exactly one bus
transaction. -/
theorem store_indirect_x_single_op (g : Cpu → Nat) (cpu : Cpu) (m : Mem)
    (s : StepOut) (h : store_indirect_x g cpu m = some s) : s.ops.length = 1 := by
  unfold store_indirect_x at h
  split_ifs at h <;> (injection h with h2; subst h2; rfl)

/-- Each successful `store_indirect_y` invocation performs exactly one bus
transaction. -/
theorem store_indirect_y_single_op (g : Cpu → Nat) (cpu : Cpu) (m : Mem)
    (s : StepOut) (h : store_indirect_y g cpu m = some s) : s.ops.length = 1 := by
  unfold store_indirect_y at h
  split_ifs at h <;> (injection h with h2; subst h2; rfl)

set_option maxHeartbeats 1000000 in
/-- C7: every dispatcher invocation that executes (does not fault) performs
exactly one memory-bus transaction — one load, one store, or one dummy
load — for the cycle-0 opcode fetch and every cycle of every one of the 99
wired (mnemonic, mode) handlers alike; dummy reads are ordinary `load`s
recorded on the same bus. -/
theorem dispatch_exactly_one_bus_op (cpu : Cpu) (m : Mem) (s : StepOut)
    (h : dispatch_current_opcode cpu m = .ok s) : s.ops.length = 1 := by
  unfold dispatch_current_opcode at h
  by_cases h0 : cpu.current_cycle = 0
  · rw [if_pos h0] at h
    injection h with h2
    subst h2
    rfl
  · rw [if_neg h0] at h
    cases hop : cpu.current_opcode <;>
      simp only [dispatchOpcode, hop, zeropage_x, zeropage_y, absolute_x,
        absolute_y] at h <;>
      first
        | exact Except.noConfusion h
        | exact immediate_single_op _ _ _ _ (liftTemplate_ok _ _ h)
        | exact zeropage_single_op _ _ _ _ (liftTemplate_ok _ _ h)
        | exact zeropage_indexed_single_op _ _ _ _ _ (liftTemplate_ok _ _ h)
        | exact absolute_single_op _ _ _ _ (liftTemplate_ok _ _ h)
        | exact absolute_indexed_single_op _ _ _ _ _ (liftTemplate_ok _ _ h)
        | exact indirect_x_single_op _ _ _ _ (liftTemplate_ok _ _ h)
        | exact indirect_y_single_op _ _ _ _ (liftTemplate_ok _ _ h)
        | exact single_byte_single_op _ _ _ _ (liftTemplate_ok _ _ h)
        | exact store_zeropage_single_op _ _ _ _ (liftTemplate_ok _ _ h)
        | exact store_zeropage_indexed_single_op _ _ _ _ _ (liftTemplate_ok _ _ h)
        | exact store_absolute_single_op _ _ _ _ (liftTemplate_ok _ _ h)
        | exact store_absolute_indexed_single_op _ _ _ _ _ (liftTemplate_ok _ _ h)
        | exact store_indirect_x_single_op _ _ _ _ (liftTemplate_ok _ _ h)
        | exact store_indirect_y_single_op _ _ _ _ (liftTemplate_ok _ _ h)

/-- Witness for C7: the cycle-0 opcode fetch at the concrete base state
performs exactly one bus transaction (a load), and the final cycle of a
concrete `STA absolute` performs exactly one bus transaction (a store). -/
theorem dispatch_exactly_one_bus_op_witness :
    ((⟨{ cpuBase with
           program_counter := 0x0201,
           current_opcode := opcodeFromByte (load8 memZero 0x0200) },
       [busLoad 0x0200], false⟩ : StepOut).ops.length = 1) ∧
    ((⟨{ cpuBase with
           current_opcode := .StaAbsolute, current_cycle := 3,
           effective_address := 0x1234 },
       [BusOp.store 0x1234 0x42], true⟩ : StepOut).ops.length = 1) :=
  ⟨dispatch_exactly_one_bus_op cpuBase memZero _ (by rfl),
   dispatch_exactly_one_bus_op
     { cpuBase with
         current_opcode := .StaAbsolute, current_cycle := 3,
         effective_address := 0x1234 } memZero _ (by rfl)⟩

set_option maxRecDepth 4096 in
/-- Every byte outside the recognized opcode list decodes to the
`Unimplemented` sentinel. -/
theorem unrecognized_byte_is_unimplemented :
    ∀ b : Nat, b < 256 → b ∉ recognizedOpcodeBytes →
      opcodeFromByte b = .Unimplemented := by decide

/-- C6 (amended): dispatching an opcode byte outside the recognized set is
a fatal, unrecoverable failure — the cycle after the opcode fetch aborts
the core with the `unimplemented!()` panic — but the diagnostic it surfaces
is the fixed message "not implemented", which does not identify the
offending opcode byte or the `PC`. -/
theorem unimplemented_opcode_fatal (b : Nat) (cpu : Cpu) (m : Mem)
    (hb : b < 256) (hnr : b ∉ recognizedOpcodeBytes)
    (h0 : cpu.current_cycle = 0) (hm : load8 m cpu.program_counter = b) :
    runSteps 2 cpu m = .error (.unimplemented "not implemented") := by
  have hop : opcodeFromByte b = .Unimplemented :=
    unrecognized_byte_is_unimplemented b hb hnr
  simp [runSteps, step_cycle, dispatch_current_opcode, dispatchOpcode,
    fetch_from_pc, h0, hm, hop]

/-- A concrete state whose next opcode byte is the unrecognized `0x02`. -/
def cpuUnknownA : Cpu := cpuBase

/-- Memory for `cpuUnknownA`: `0x02` at `PC = 0x0200`. -/
def memUnknownA : Mem := fun a => if a = 0x0200 then 0x02 else 0

/-- A concrete state at a different `PC` (0x0300) whose next opcode byte is
the unrecognized `0x03`. -/
def cpuUnknownB : Cpu := { cpuBase with program_counter := 0x0300 }

/-- Memory for `cpuUnknownB`: `0x03` at `PC = 0x0300`. -/
def memUnknownB : Mem := fun a => if a = 0x0300 then 0x03 else 0

/-- Counterexample for C6: two aborts on different unrecognized opcode
bytes (`0x02` vs `0x03`) fetched at different `PC`s (`0x0200` vs `0x0300`)
surface the *same* diagnostic, the bare `unimplemented!()` message — so the
diagnostic identifies neither the offending byte nor the `PC`, contrary to
the claim. -/
theorem unimplemented_diagnostic_not_identifying :
    runSteps 2 cpuUnknownA memUnknownA =
      .error (.unimplemented "not implemented") ∧
    runSteps 2 cpuUnknownB memUnknownB =
      .error (.unimplemented "not implemented") ∧
    load8 memUnknownA cpuUnknownA.program_counter ≠
      load8 memUnknownB cpuUnknownB.program_counter ∧
    cpuUnknownA.program_counter ≠ cpuUnknownB.program_counter :=
  ⟨rfl, rfl, by decide, by decide⟩

/-- Witness for C6 (amended): the amended theorem applied at the concrete
unrecognized byte `0x02`. -/
theorem unimplemented_opcode_fatal_witness :
    runSteps 2 cpuUnknownA memUnknownA =
      .error (.unimplemented "not implemented") :=
  unimplemented_opcode_fatal 0x02 cpuUnknownA memUnknownA (by decide)
    (by decide) (by decide) (by decide)

/-- The last in-contract `current_cycle` value of the template wired to
each opcode: 1 for immediate reads, single-byte instructions and the
`Unimplemented` sentinel (which faults at cycle 1), 2 for zero-page, 3 for
zero-page indexed and absolute, 4 for absolute indexed, 5 for the indirect
modes. -/
def templateMaxCycle (op : OpCode) : Nat :=
  match op with
  | .AdcZeroPage | .AndZeroPage | .BitZeroPage | .CmpZeroPage
  | .EorZeroPage | .LdaZeroPage | .LdxZeroPage | .LdyZeroPage
  | .OraZeroPage | .SbcZeroPage
  | .StaZeroPage | .StxZeroPage | .StyZeroPage => 2
  | .AdcZeroPageX | .AndZeroPageX | .CmpZeroPageX | .EorZeroPageX
  | .LdaZeroPageX | .LdxZeroPageY | .LdyZeroPageX | .OraZeroPageX
  | .SbcZeroPageX
  | .StaZeroPageX | .StxZeroPageY | .StyZeroPageX
  | .AdcAbsolute | .AndAbsolute | .BitAbsolute | .CmpAbsolute
  | .EorAbsolute | .LdaAbsolute | .LdxAbsolute | .LdyAbsolute
  | .OraAbsolute | .SbcAbsolute
  | .StaAbsolute | .StxAbsolute | .StyAbsolute => 3
  | .AdcAbsoluteX | .AdcAbsoluteY | .AndAbsoluteX | .AndAbsoluteY
  | .CmpAbsoluteX | .CmpAbsoluteY | .EorAbsoluteX | .EorAbsoluteY
  | .LdaAbsoluteX | .LdaAbsoluteY | .LdxAbsoluteY | .LdyAbsoluteX
  | .OraAbsoluteX | .OraAbsoluteY | .SbcAbsoluteX | .SbcAbsoluteY
  | .StaAbsoluteX | .StaAbsoluteY => 4
  | .AdcIndirectX | .AndIndirectX | .CmpIndirectX | .EorIndirectX
  | .LdaIndirectX | .OraIndirectX | .SbcIndirectX | .StaIndirectX
  | .AdcIndirectY | .AndIndirectY | .CmpIndirectY | .EorIndirectY
  | .LdaIndirectY | .OraIndirectY | .SbcIndirectY | .StaIndirectY => 5
  | _ => 1

/-- `single_byte` succeeds on its single in-contract cycle. -/
theorem single_byte_progress (f : Cpu → Cpu) (cpu : Cpu) (m : Mem)
    (h1 : 1 ≤ cpu.current_cycle) (h2 : cpu.current_cycle ≤ 1) :
    ∃ s, single_byte f cpu m = some s ∧
      (s.isBreak = false → s.cpu.current_cycle = cpu.current_cycle ∧
        s.cpu.current_opcode = cpu.current_opcode ∧ cpu.current_cycle < 1) := by
  have h : cpu.current_cycle = 1 := by omega
  simp [single_byte, h]

/-- `store_zeropage` succeeds on every in-contract cycle. -/
theorem store_zeropage_progress (g : Cpu → Nat) (cpu : Cpu) (m : Mem)
    (h1 : 1 ≤ cpu.current_cycle) (h2 : cpu.current_cycle ≤ 2) :
    ∃ s, store_zeropage g cpu m = some s ∧
      (s.isBreak = false → s.cpu.current_cycle = cpu.current_cycle ∧
        s.cpu.current_opcode = cpu.current_opcode ∧ cpu.current_cycle < 2) := by
  rcases (by omega : cpu.current_cycle = 1 ∨ cpu.current_cycle = 2) with h | h <;>
    simp [store_zeropage, h, fetch_from_pc]

/-- `store_zeropage_indexed` succeeds on every in-contract cycle. -/
theorem store_zeropage_indexed_progress (gi : Cpu → Nat) (g : Cpu → Nat)
    (cpu : Cpu) (m : Mem)
    (h1 : 1 ≤ cpu.current_cycle) (h2 : cpu.current_cycle ≤ 3) :
    ∃ s, store_zeropage_indexed gi g cpu m = some s ∧
      (s.isBreak = false → s.cpu.current_cycle = cpu.current_cycle ∧
        s.cpu.current_opcode = cpu.current_opcode ∧ cpu.current_cycle < 3) := by
  rcases (by omega :
      cpu.current_cycle = 1 ∨ cpu.current_cycle = 2 ∨ cpu.current_cycle = 3)
    with h | h | h <;>
    simp [store_zeropage_indexed, h, fetch_from_pc]

/-- `store_absolute` succeeds on every in-contract cycle. -/
theorem store_absolute_progress (g : Cpu → Nat) (cpu : Cpu) (m : Mem)
    (h1 : 1 ≤ cpu.current_cycle) (h2 : cpu.current_cycle ≤ 3) :
    ∃ s, store_absolute g cpu m = some s ∧
      (s.isBreak = false → s.cpu.current_cycle = cpu.current_cycle ∧
        s.cpu.current_opcode = cpu.current_opcode ∧ cpu.current_cycle < 3) := by
  rcases (by omega :
      cpu.current_cycle = 1 ∨ cpu.current_cycle = 2 ∨ cpu.current_cycle = 3)
    with h | h | h <;>
    simp [store_absolute, h, fetch_from_pc]

/-- `store_absolute_indexed` succeeds on every in-contract cycle; cycle 3
always continues (both carry and no-carry branches). -/
theorem store_absolute_indexed_progress (gi : Cpu → Nat) (g : Cpu → Nat)
    (cpu : Cpu) (m : Mem)
    (h1 : 1 ≤ cpu.current_cycle) (h2 : cpu.current_cycle ≤ 4) :
    ∃ s, store_absolute_indexed gi g cpu m = some s ∧
      (s.isBreak = false → s.cpu.current_cycle = cpu.current_cycle ∧
        s.cpu.current_opcode = cpu.current_opcode ∧ cpu.current_cycle < 4) := by
  rcases (by omega :
      cpu.current_cycle = 1 ∨ cpu.current_cycle = 2 ∨ cpu.current_cycle = 3 ∨
        cpu.current_cycle = 4)
    with h | h | h | h <;>
    [skip; skip;
     (by_cases hc : cpu.internal_flags.effective_addr_carry <;>
        simp [store_absolute_indexed, h, hc, fetch_from_pc]);
     skip] <;>
    simp [store_absolute_indexed, h, fetch_from_pc]

/-- `store_indirect_x` succeeds on every in-contract cycle. -/
theorem store_indirect_x_progress (g : Cpu → Nat) (cpu : Cpu) (m : Mem)
    (h1 : 1 ≤ cpu.current_cycle) (h2 : cpu.current_cycle ≤ 5) :
    ∃ s, store_indirect_x g cpu m = some s ∧
      (s.isBreak = false → s.cpu.current_cycle = cpu.current_cycle ∧
        s.cpu.current_opcode = cpu.current_opcode ∧ cpu.current_cycle < 5) := by
  rcases (by omega :
      cpu.current_cycle = 1 ∨ cpu.current_cycle = 2 ∨ cpu.current_cycle = 3 ∨
        cpu.current_cycle = 4 ∨ cpu.current_cycle = 5)
    with h | h | h | h | h <;>
    simp [store_indirect_x, h, fetch_from_pc]

/-- `store_indirect_y` succeeds on every in-contract cycle; cycle 4 always
continues (both carry branches). -/
theorem store_indirect_y_progress (g : Cpu → Nat) (cpu : Cpu) (m : Mem)
    (h1 : 1 ≤ cpu.current_cycle) (h2 : cpu.current_cycle ≤ 5) :
    ∃ s, store_indirect_y g cpu m = some s ∧
      (s.isBreak = false → s.cpu.current_cycle = cpu.current_cycle ∧
        s.cpu.current_opcode = cpu.current_opcode ∧ cpu.current_cycle < 5) := by
  rcases (by omega :
      cpu.current_cycle = 1 ∨ cpu.current_cycle = 2 ∨ cpu.current_cycle = 3 ∨
        cpu.current_cycle = 4 ∨ cpu.current_cycle = 5)
    with h | h | h | h | h <;>
    [skip; skip; skip;
     (by_cases hc : cpu.internal_flags.effective_addr_carry <;>
        simp [store_indirect_y, h, hc, fetch_from_pc]);
     skip] <;>
    simp [store_indirect_y, h, fetch_from_pc]

/-- `immediate` succeeds on every in-contract cycle; on "continue" it
leaves `current_cycle` and `current_opcode` untouched and stays below the
contract bound. -/
theorem immediate_progress (f : Cpu → Nat → Cpu) (cpu : Cpu) (m : Mem)
    (h1 : 1 ≤ cpu.current_cycle) (h2 : cpu.current_cycle ≤ 1) :
    ∃ s, immediate f cpu m = some s ∧
      (s.isBreak = false → s.cpu.current_cycle = cpu.current_cycle ∧
        s.cpu.current_opcode = cpu.current_opcode ∧ cpu.current_cycle < 1) := by
  have h : cpu.current_cycle = 1 := by omega
  simp [immediate, h, fetch_from_pc]

/-- `zeropage` succeeds on every in-contract cycle (see
`immediate_progress`). -/
theorem zeropage_progress (f : Cpu → Nat → Cpu) (cpu : Cpu) (m : Mem)
    (h1 : 1 ≤ cpu.current_cycle) (h2 : cpu.current_cycle ≤ 2) :
    ∃ s, zeropage f cpu m = some s ∧
      (s.isBreak = false → s.cpu.current_cycle = cpu.current_cycle ∧
        s.cpu.current_opcode = cpu.current_opcode ∧ cpu.current_cycle < 2) := by
  rcases (by omega : cpu.current_cycle = 1 ∨ cpu.current_cycle = 2) with h | h <;>
    simp [zeropage, h, fetch_from_pc]

/-- `zeropage_indexed` succeeds on every in-contract cycle (see
`immediate_progress`). -/
theorem zeropage_indexed_progress (gi : Cpu → Nat) (f : Cpu → Nat → Cpu)
    (cpu : Cpu) (m : Mem)
    (h1 : 1 ≤ cpu.current_cycle) (h2 : cpu.current_cycle ≤ 3) :
    ∃ s, zeropage_indexed gi f cpu m = some s ∧
      (s.isBreak = false → s.cpu.current_cycle = cpu.current_cycle ∧
        s.cpu.current_opcode = cpu.current_opcode ∧ cpu.current_cycle < 3) := by
  rcases (by omega :
      cpu.current_cycle = 1 ∨ cpu.current_cycle = 2 ∨ cpu.current_cycle = 3)
    with h | h | h <;>
    simp [zeropage_indexed, h, fetch_from_pc]

/-- `absolute` succeeds on every in-contract cycle (see
`immediate_progress`). -/
theorem absolute_progress (f : Cpu → Nat → Cpu) (cpu : Cpu) (m : Mem)
    (h1 : 1 ≤ cpu.current_cycle) (h2 : cpu.current_cycle ≤ 3) :
    ∃ s, absolute f cpu m = some s ∧
      (s.isBreak = false → s.cpu.current_cycle = cpu.current_cycle ∧
        s.cpu.current_opcode = cpu.current_opcode ∧ cpu.current_cycle < 3) := by
  rcases (by omega :
      cpu.current_cycle = 1 ∨ cpu.current_cycle = 2 ∨ cpu.current_cycle = 3)
    with h | h | h <;>
    simp [absolute, h, fetch_from_pc]

/-- `absolute_indexed` succeeds on every in-contract cycle (see
`immediate_progress`); at cycle 3 both the break path (no carry) and the
continue path (carry fixup) respect the bound. -/
theorem absolute_indexed_progress (gi : Cpu → Nat) (f : Cpu → Nat → Cpu)
    (cpu : Cpu) (m : Mem)
    (h1 : 1 ≤ cpu.current_cycle) (h2 : cpu.current_cycle ≤ 4) :
    ∃ s, absolute_indexed gi f cpu m = some s ∧
      (s.isBreak = false → s.cpu.current_cycle = cpu.current_cycle ∧
        s.cpu.current_opcode = cpu.current_opcode ∧ cpu.current_cycle < 4) := by
  rcases (by omega :
      cpu.current_cycle = 1 ∨ cpu.current_cycle = 2 ∨ cpu.current_cycle = 3 ∨
        cpu.current_cycle = 4)
    with h | h | h | h <;>
    [skip; skip;
     (by_cases hc : cpu.internal_flags.effective_addr_carry <;>
        simp [absolute_indexed, h, hc, fetch_from_pc]);
     skip] <;>
    simp [absolute_indexed, h, fetch_from_pc]

/-- `indirect_x` succeeds on every in-contract cycle (see
`immediate_progress`). -/
theorem indirect_x_progress (f : Cpu → Nat → Cpu) (cpu : Cpu) (m : Mem)
    (h1 : 1 ≤ cpu.current_cycle) (h2 : cpu.current_cycle ≤ 5) :
    ∃ s, indirect_x f cpu m = some s ∧
      (s.isBreak = false → s.cpu.current_cycle = cpu.current_cycle ∧
        s.cpu.current_opcode = cpu.current_opcode ∧ cpu.current_cycle < 5) := by
  rcases (by omega :
      cpu.current_cycle = 1 ∨ cpu.current_cycle = 2 ∨ cpu.current_cycle = 3 ∨
        cpu.current_cycle = 4 ∨ cpu.current_cycle = 5)
    with h | h | h | h | h <;>
    simp [indirect_x, h, fetch_from_pc]

/-- `indirect_y` succeeds on every in-contract cycle (see
`immediate_progress` and `absolute_indexed_progress`). -/
theorem indirect_y_progress (f : Cpu → Nat → Cpu) (cpu : Cpu) (m : Mem)
    (h1 : 1 ≤ cpu.current_cycle) (h2 : cpu.current_cycle ≤ 5) :
    ∃ s, indirect_y f cpu m = some s ∧
      (s.isBreak = false → s.cpu.current_cycle = cpu.current_cycle ∧
        s.cpu.current_opcode = cpu.current_opcode ∧ cpu.current_cycle < 5) := by
  rcases (by omega :
      cpu.current_cycle = 1 ∨ cpu.current_cycle = 2 ∨ cpu.current_cycle = 3 ∨
        cpu.current_cycle = 4 ∨ cpu.current_cycle = 5)
    with h | h | h | h | h <;>
    [skip; skip; skip;
     (by_cases hc : cpu.internal_flags.effective_addr_carry <;>
        simp [indirect_y, h, hc, fetch_from_pc]);
     skip] <;>
    simp [indirect_y, h, fetch_from_pc]

/-- Package a template progress fact into the two dispatcher-level
obligations for a lifted arm: no `impossibleCycle` fault, and contract
preservation on "continue". -/
theorem armOK_of_progress (r : Option StepOut) (cpu : Cpu) (M : Nat)
    (h : ∃ s, r = some s ∧
      (s.isBreak = false → s.cpu.current_cycle = cpu.current_cycle ∧
        s.cpu.current_opcode = cpu.current_opcode ∧ cpu.current_cycle < M)) :
    (∀ e, liftTemplate r = .error e → e ≠ .impossibleCycle) ∧
    (∀ s, liftTemplate r = .ok s → s.isBreak = false →
      s.cpu.current_cycle = cpu.current_cycle ∧
        s.cpu.current_opcode = cpu.current_opcode ∧ cpu.current_cycle < M) := by
  obtain ⟨s, rfl, himp⟩ := h
  constructor
  · intro e he
    exact Except.noConfusion he
  · intro s' hs'
    injection hs' with h2
    subst h2
    exact himp

set_option maxHeartbeats 2000000 in
/-- Every dispatched arm, invoked at an in-contract cycle for its opcode,
never faults with `impossibleCycle`, and on "continue" leaves
`current_cycle`/`current_opcode` unchanged with the cycle strictly below
the contract bound. -/
theorem dispatchOpcode_arm_ok (op : OpCode) (cpu : Cpu) (m : Mem)
    (h1 : 1 ≤ cpu.current_cycle) (h2 : cpu.current_cycle ≤ templateMaxCycle op) :
    (∀ e, dispatchOpcode op cpu m = .error e → e ≠ .impossibleCycle) ∧
    (∀ s, dispatchOpcode op cpu m = .ok s → s.isBreak = false →
      s.cpu.current_cycle = cpu.current_cycle ∧
        s.cpu.current_opcode = cpu.current_opcode ∧
        cpu.current_cycle < templateMaxCycle op) := by
  cases op <;>
    simp only [templateMaxCycle] at h2 ⊢ <;>
    simp only [dispatchOpcode, zeropage_x, zeropage_y, absolute_x,
      absolute_y] <;>
    first
      | exact ⟨fun e he => by injection he with h3; subst h3; simp,
               fun s hs => absurd hs (by simp)⟩
      | exact armOK_of_progress _ _ _ (immediate_progress _ cpu m h1 h2)
      | exact armOK_of_progress _ _ _ (zeropage_progress _ cpu m h1 h2)
      | exact armOK_of_progress _ _ _ (zeropage_indexed_progress _ _ cpu m h1 h2)
      | exact armOK_of_progress _ _ _ (absolute_progress _ cpu m h1 h2)
      | exact armOK_of_progress _ _ _ (absolute_indexed_progress _ _ cpu m h1 h2)
      | exact armOK_of_progress _ _ _ (indirect_x_progress _ cpu m h1 h2)
      | exact armOK_of_progress _ _ _ (indirect_y_progress _ cpu m h1 h2)
      | exact armOK_of_progress _ _ _ (single_byte_progress _ cpu m h1 h2)
      | exact armOK_of_progress _ _ _ (store_zeropage_progress _ cpu m h1 h2)
      | exact armOK_of_progress _ _ _ (store_zeropage_indexed_progress _ _ cpu m h1 h2)
      | exact armOK_of_progress _ _ _ (store_absolute_progress _ cpu m h1 h2)
      | exact armOK_of_progress _ _ _ (store_absolute_indexed_progress _ _ cpu m h1 h2)
      | exact armOK_of_progress _ _ _ (store_indirect_x_progress _ cpu m h1 h2)
      | exact armOK_of_progress _ _ _ (store_indirect_y_progress _ cpu m h1 h2)

/-- The reachability invariant of the stepping discipline: between
instructions the cycle counter is 0; inside an instruction it stays within
the wired template's contract. -/
def CycleInv (cpu : Cpu) : Prop :=
  cpu.current_cycle = 0 ∨
    (1 ≤ cpu.current_cycle ∧
      cpu.current_cycle ≤ templateMaxCycle cpu.current_opcode)

/-- Every modelled opcode admits at least cycle 1. -/
theorem templateMaxCycle_pos (op : OpCode) : 1 ≤ templateMaxCycle op := by
  cases op <;> simp [templateMaxCycle]

/-- One step from an invariant state never faults with `impossibleCycle`
and re-establishes the invariant. -/
theorem step_cycle_preserves_inv (cpu : Cpu) (m : Mem) (hinv : CycleInv cpu) :
    (∀ e, step_cycle cpu m = .error e → e ≠ .impossibleCycle) ∧
    (∀ c ops, step_cycle cpu m = .ok (c, ops) → CycleInv c) := by
  by_cases h0 : cpu.current_cycle = 0
  · constructor
    · intro e he
      simp [step_cycle, dispatch_current_opcode, h0] at he
    · intro c ops hc
      simp [step_cycle, dispatch_current_opcode, h0, fetch_from_pc] at hc
      obtain ⟨hc1, -⟩ := hc
      right
      rw [← hc1]
      refine ⟨by simp [h0], ?_⟩
      simp [h0]
      exact templateMaxCycle_pos _
  · have hb : 1 ≤ cpu.current_cycle ∧
        cpu.current_cycle ≤ templateMaxCycle cpu.current_opcode := by
      rcases hinv with h | h
      · exact absurd h h0
      · exact h
    obtain ⟨harm1, harm2⟩ :=
      dispatchOpcode_arm_ok cpu.current_opcode cpu m hb.1 hb.2
    constructor
    · intro e he
      rw [step_cycle] at he
      rcases hd : dispatch_current_opcode cpu m with e' | s
      · rw [hd] at he
        injection he with h2
        subst h2
        rw [dispatch_current_opcode, if_neg h0] at hd
        exact harm1 _ hd
      · rw [hd] at he
        by_cases hbrk : s.isBreak <;> simp [hbrk] at he
    · intro c ops hc
      rw [step_cycle] at hc
      rcases hd : dispatch_current_opcode cpu m with e' | s
      · rw [hd] at hc
        exact Except.noConfusion hc
      · rw [hd] at hc
        rw [dispatch_current_opcode, if_neg h0] at hd
        by_cases hbrk : s.isBreak
        · simp [hbrk] at hc
          left
          rw [← hc.1]
        · simp [hbrk] at hc
          obtain ⟨hcyc, hop, hlt⟩ := harm2 s hd (Bool.eq_false_iff.mpr hbrk)
          right
          rw [← hc.1]
          simp [hcyc, hop]
          omega

/-- Runs from any invariant state never fault with `impossibleCycle`. -/
theorem runSteps_no_impossible (n : Nat) :
    ∀ (cpu : Cpu) (m : Mem), CycleInv cpu →
      runSteps n cpu m ≠ .error .impossibleCycle := by
  induction n with
  | zero =>
    intro cpu m _ h
    exact Except.noConfusion h
  | succ n ih =>
    intro cpu m hinv h
    rw [runSteps] at h
    rcases hs : step_cycle cpu m with e | r
    · rw [hs] at h
      injection h with h2
      exact (step_cycle_preserves_inv cpu m hinv).1 e hs h2
    · rw [hs] at h
      exact ih r.1 (applyOps m r.2)
        ((step_cycle_preserves_inv cpu m hinv).2 r.1 r.2 (by rw [hs])) h

/-- C8: under the stepping discipline (cycle 0 between instructions,
increment on "continue", reset on "break") no addressing-mode template is
ever invoked with an out-of-contract `current_cycle` — no reachable run
ever hits the `unreachable!()` fault — while invoking a handler at an
out-of-contract cycle (e.g. an immediate-mode opcode at cycle ≥ 2) is
fatal. -/
theorem no_template_invoked_out_of_contract :
    (∀ (n : Nat) (cpu : Cpu) (m : Mem), cpu.current_cycle = 0 →
      runSteps n cpu m ≠ .error .impossibleCycle) ∧
    (∀ (cpu : Cpu) (m : Mem), cpu.current_opcode = .CmpImmediate →
      2 ≤ cpu.current_cycle →
      dispatch_current_opcode cpu m = .error .impossibleCycle) := by
  constructor
  · intro n cpu m h0
    exact runSteps_no_impossible n cpu m (Or.inl h0)
  · intro cpu m hop hcyc
    rw [dispatch_current_opcode, if_neg (by omega), hop]
    simp [dispatchOpcode, immediate, liftTemplate,
      show cpu.current_cycle ≠ 1 by omega]

/-- Witness for C8: a concrete 3-cycle run of the CMP-immediate program
from cycle 0 never hits the impossible-cycle fault, and a concrete
immediate-mode state at cycle 2 faults. -/
theorem no_template_invoked_out_of_contract_witness :
    (runSteps 3 cpuCmpScenario memCmpScenario ≠ .error .impossibleCycle) ∧
    (dispatch_current_opcode
        { cpuBase with current_opcode := .CmpImmediate, current_cycle := 2 }
        memZero = .error .impossibleCycle) :=
  ⟨no_template_invoked_out_of_contract.1 3 cpuCmpScenario memCmpScenario rfl,
   no_template_invoked_out_of_contract.2
     { cpuBase with current_opcode := .CmpImmediate, current_cycle := 2 }
     memZero rfl (by decide)⟩

/-- On "continue" a template invocation changes neither the opcode nor the
architectural flags; on "break" its result is the handler applied to a
state whose flags are the entry flags (`immediate` template). -/
theorem immediate_handler_shape (f : Cpu → Nat → Cpu) (cpu : Cpu) (m : Mem)
    (s : StepOut) (h : immediate f cpu m = some s) :
    (s.isBreak = false → s.cpu.current_opcode = cpu.current_opcode ∧
      s.cpu.flags = cpu.flags) ∧
    (s.isBreak = true → ∃ c v, s.cpu = f c v ∧ c.flags = cpu.flags) := by
  unfold immediate at h
  split_ifs at h <;> (injection h with h2; subst h2) <;>
    first
      | exact ⟨fun hb => ⟨rfl, rfl⟩, fun hb => absurd hb (by simp)⟩
      | exact ⟨fun hb => absurd hb (by simp), fun hb => ⟨_, _, rfl, rfl⟩⟩

/-- `zeropage` analogue of `immediate_handler_shape`. -/
theorem zeropage_handler_shape (f : Cpu → Nat → Cpu) (cpu : Cpu) (m : Mem)
    (s : StepOut) (h : zeropage f cpu m = some s) :
    (s.isBreak = false → s.cpu.current_opcode = cpu.current_opcode ∧
      s.cpu.flags = cpu.flags) ∧
    (s.isBreak = true → ∃ c v, s.cpu = f c v ∧ c.flags = cpu.flags) := by
  unfold zeropage at h
  split_ifs at h <;> (injection h with h2; subst h2) <;>
    first
      | exact ⟨fun hb => ⟨rfl, rfl⟩, fun hb => absurd hb (by simp)⟩
      | exact ⟨fun hb => absurd hb (by simp), fun hb => ⟨_, _, rfl, rfl⟩⟩

/-- `zeropage_indexed` analogue of `immediate_handler_shape`. -/
theorem zeropage_indexed_handler_shape (gi : Cpu → Nat) (f : Cpu → Nat → Cpu)
    (cpu : Cpu) (m : Mem) (s : StepOut)
    (h : zeropage_indexed gi f cpu m = some s) :
    (s.isBreak = false → s.cpu.current_opcode = cpu.current_opcode ∧
      s.cpu.flags = cpu.flags) ∧
    (s.isBreak = true → ∃ c v, s.cpu = f c v ∧ c.flags = cpu.flags) := by
  unfold zeropage_indexed at h
  split_ifs at h <;> (injection h with h2; subst h2) <;>
    first
      | exact ⟨fun hb => ⟨rfl, rfl⟩, fun hb => absurd hb (by simp)⟩
      | exact ⟨fun hb => absurd hb (by simp), fun hb => ⟨_, _, rfl, rfl⟩⟩

/-- `absolute` analogue of `immediate_handler_shape`. -/
theorem absolute_handler_shape (f : Cpu → Nat → Cpu) (cpu : Cpu) (m : Mem)
    (s : StepOut) (h : absolute f cpu m = some s) :
    (s.isBreak = false → s.cpu.current_opcode = cpu.current_opcode ∧
      s.cpu.flags = cpu.flags) ∧
    (s.isBreak = true → ∃ c v, s.cpu = f c v ∧ c.flags = cpu.flags) := by
  unfold absolute at h
  split_ifs at h <;> (injection h with h2; subst h2) <;>
    first
      | exact ⟨fun hb => ⟨rfl, rfl⟩, fun hb => absurd hb (by simp)⟩
      | exact ⟨fun hb => absurd hb (by simp), fun hb => ⟨_, _, rfl, rfl⟩⟩

/-- `absolute_indexed` analogue of `immediate_handler_shape`: the
page-cross fixup path touches only the effective address, never the
architectural flags. -/
theorem absolute_indexed_handler_shape (gi : Cpu → Nat) (f : Cpu → Nat → Cpu)
    (cpu : Cpu) (m : Mem) (s : StepOut)
    (h : absolute_indexed gi f cpu m = some s) :
    (s.isBreak = false → s.cpu.current_opcode = cpu.current_opcode ∧
      s.cpu.flags = cpu.flags) ∧
    (s.isBreak = true → ∃ c v, s.cpu = f c v ∧ c.flags = cpu.flags) := by
  unfold absolute_indexed at h
  split_ifs at h <;> (injection h with h2; subst h2) <;>
    first
      | exact ⟨fun hb => ⟨rfl, rfl⟩, fun hb => absurd hb (by simp)⟩
      | exact ⟨fun hb => absurd hb (by simp), fun hb => ⟨_, _, rfl, rfl⟩⟩

/-- `indirect_x` analogue of `immediate_handler_shape`. -/
theorem indirect_x_handler_shape (f : Cpu → Nat → Cpu) (cpu : Cpu) (m : Mem)
    (s : StepOut) (h : indirect_x f cpu m = some s) :
    (s.isBreak = false → s.cpu.current_opcode = cpu.current_opcode ∧
      s.cpu.flags = cpu.flags) ∧
    (s.isBreak = true → ∃ c v, s.cpu = f c v ∧ c.flags = cpu.flags) := by
  unfold indirect_x at h
  split_ifs at h <;> (injection h with h2; subst h2) <;>
    first
      | exact ⟨fun hb => ⟨rfl, rfl⟩, fun hb => absurd hb (by simp)⟩
      | exact ⟨fun hb => absurd hb (by simp), fun hb => ⟨_, _, rfl, rfl⟩⟩

/-- `indirect_y` analogue of `immediate_handler_shape`. -/
theorem indirect_y_handler_shape (f : Cpu → Nat → Cpu) (cpu : Cpu) (m : Mem)
    (s : StepOut) (h : indirect_y f cpu m = some s) :
    (s.isBreak = false → s.cpu.current_opcode = cpu.current_opcode ∧
      s.cpu.flags = cpu.flags) ∧
    (s.isBreak = true → ∃ c v, s.cpu = f c v ∧ c.flags = cpu.flags) := by
  unfold indirect_y at h
  split_ifs at h <;> (injection h with h2; subst h2) <;>
    first
      | exact ⟨fun hb => ⟨rfl, rfl⟩, fun hb => absurd hb (by simp)⟩
      | exact ⟨fun hb => absurd hb (by simp), fun hb => ⟨_, _, rfl, rfl⟩⟩

/-- On "break" a `single_byte` invocation is the mutator applied to a state
carrying the entry flags; it never continues. -/
theorem single_byte_handler_shape (f : Cpu → Cpu) (cpu : Cpu) (m : Mem)
    (s : StepOut) (h : single_byte f cpu m = some s) :
    (s.isBreak = false → s.cpu.current_opcode = cpu.current_opcode ∧
      s.cpu.flags = cpu.flags) ∧
    (s.isBreak = true → ∃ c, s.cpu = f c ∧ c.flags = cpu.flags) := by
  unfold single_byte at h
  split_ifs at h <;> (injection h with h2; subst h2)
  exact ⟨fun hb => absurd hb (by simp), fun hb => ⟨cpu, rfl, rfl⟩⟩

/-- A store template never touches the architectural flags, and on
"continue" keeps the opcode (`store_zeropage`). -/
theorem store_zeropage_flags_shape (g : Cpu → Nat) (cpu : Cpu) (m : Mem)
    (s : StepOut) (h : store_zeropage g cpu m = some s) :
    s.cpu.flags = cpu.flags ∧
    (s.isBreak = false → s.cpu.current_opcode = cpu.current_opcode) := by
  unfold store_zeropage at h
  split_ifs at h <;> (injection h with h2; subst h2) <;>
    exact ⟨rfl, fun _ => rfl⟩

/-- `store_zeropage_indexed` analogue of `store_zeropage_flags_shape`. -/
theorem store_zeropage_indexed_flags_shape (gi : Cpu → Nat) (g : Cpu → Nat)
    (cpu : Cpu) (m : Mem) (s : StepOut)
    (h : store_zeropage_indexed gi g cpu m = some s) :
    s.cpu.flags = cpu.flags ∧
    (s.isBreak = false → s.cpu.current_opcode = cpu.current_opcode) := by
  unfold store_zeropage_indexed at h
  split_ifs at h <;> (injection h with h2; subst h2) <;>
    exact ⟨rfl, fun _ => rfl⟩

/-- `store_absolute` analogue of `store_zeropage_flags_shape`. -/
theorem store_absolute_flags_shape (g : Cpu → Nat) (cpu : Cpu) (m : Mem)
    (s : StepOut) (h : store_absolute g cpu m = some s) :
    s.cpu.flags = cpu.flags ∧
    (s.isBreak = false → s.cpu.current_opcode = cpu.current_opcode) := by
  unfold store_absolute at h
  split_ifs at h <;> (injection h with h2; subst h2) <;>
    exact ⟨rfl, fun _ => rfl⟩

/-- `store_absolute_indexed` analogue of `store_zeropage_flags_shape`:
the always-taken fixup cycle touches only the effective address. -/
theorem store_absolute_indexed_flags_shape (gi : Cpu → Nat) (g : Cpu → Nat)
    (cpu : Cpu) (m : Mem) (s : StepOut)
    (h : store_absolute_indexed gi g cpu m = some s) :
    s.cpu.flags = cpu.flags ∧
    (s.isBreak = false → s.cpu.current_opcode = cpu.current_opcode) := by
  unfold store_absolute_indexed at h
  split_ifs at h <;> (injection h with h2; subst h2) <;>
    exact ⟨rfl, fun _ => rfl⟩

/-- `store_indirect_x` analogue of `store_zeropage_flags_shape`. -/
theorem store_indirect_x_flags_shape (g : Cpu → Nat) (cpu : Cpu) (m : Mem)
    (s : StepOut) (h : store_indirect_x g cpu m = some s) :
    s.cpu.flags = cpu.flags ∧
    (s.isBreak = false → s.cpu.current_opcode = cpu.current_opcode) := by
  unfold store_indirect_x at h
  split_ifs at h <;> (injection h with h2; subst h2) <;>
    exact ⟨rfl, fun _ => rfl⟩

/-- `store_indirect_y` analogue of `store_zeropage_flags_shape`. -/
theorem store_indirect_y_flags_shape (g : Cpu → Nat) (cpu : Cpu) (m : Mem)
    (s : StepOut) (h : store_indirect_y g cpu m = some s) :
    s.cpu.flags = cpu.flags ∧
    (s.isBreak = false → s.cpu.current_opcode = cpu.current_opcode) := by
  unfold store_indirect_y at h
  split_ifs at h <;> (injection h with h2; subst h2) <;>
    exact ⟨rfl, fun _ => rfl⟩

/-- Equality of all architectural status bits except NEGATIVE and ZERO. -/
def flagsEqExceptNZ (F G : StatusFlags) : Prop :=
  F.carry = G.carry ∧ F.interrupt_disable = G.interrupt_disable ∧
    F.decimal = G.decimal ∧ F.brk = G.brk ∧ F.ignored = G.ignored ∧
    F.overflow = G.overflow

/-- Equality of all architectural status bits except NEGATIVE, ZERO and
CARRY. -/
def flagsEqExceptNZC (F G : StatusFlags) : Prop :=
  F.interrupt_disable = G.interrupt_disable ∧ F.decimal = G.decimal ∧
    F.brk = G.brk ∧ F.ignored = G.ignored ∧ F.overflow = G.overflow

/-- Equality of all architectural status bits except NEGATIVE, ZERO, CARRY
and OVERFLOW. -/
def flagsEqExceptNZCV (F G : StatusFlags) : Prop :=
  F.interrupt_disable = G.interrupt_disable ∧ F.decimal = G.decimal ∧
    F.brk = G.brk ∧ F.ignored = G.ignored

/-- Equality of all architectural status bits except NEGATIVE, ZERO and
OVERFLOW. -/
def flagsEqExceptNZV (F G : StatusFlags) : Prop :=
  F.carry = G.carry ∧ F.interrupt_disable = G.interrupt_disable ∧
    F.decimal = G.decimal ∧ F.brk = G.brk ∧ F.ignored = G.ignored

/-- Equality of all architectural status bits except CARRY. -/
def flagsEqExceptC (F G : StatusFlags) : Prop :=
  F.zero = G.zero ∧ F.interrupt_disable = G.interrupt_disable ∧
    F.decimal = G.decimal ∧ F.brk = G.brk ∧ F.ignored = G.ignored ∧
    F.overflow = G.overflow ∧ F.negative = G.negative

/-- Equality of all architectural status bits except INTERRUPT_DISABLE. -/
def flagsEqExceptI (F G : StatusFlags) : Prop :=
  F.carry = G.carry ∧ F.zero = G.zero ∧ F.decimal = G.decimal ∧
    F.brk = G.brk ∧ F.ignored = G.ignored ∧ F.overflow = G.overflow ∧
    F.negative = G.negative

/-- Equality of all architectural status bits except DECIMAL. -/
def flagsEqExceptD (F G : StatusFlags) : Prop :=
  F.carry = G.carry ∧ F.zero = G.zero ∧
    F.interrupt_disable = G.interrupt_disable ∧ F.brk = G.brk ∧
    F.ignored = G.ignored ∧ F.overflow = G.overflow ∧ F.negative = G.negative

/-- Equality of all architectural status bits except OVERFLOW. -/
def flagsEqExceptV (F G : StatusFlags) : Prop :=
  F.carry = G.carry ∧ F.zero = G.zero ∧
    F.interrupt_disable = G.interrupt_disable ∧ F.decimal = G.decimal ∧
    F.brk = G.brk ∧ F.ignored = G.ignored ∧ F.negative = G.negative

/-- The per-opcode per-cycle flag discipline: every successful dispatch of
`op` either continues with opcode and flags untouched, or breaks with the
exit flags related to the entry flags by `R`. -/
def OpPreserves (R : StatusFlags → StatusFlags → Prop) (op : OpCode) : Prop :=
  ∀ (cpu : Cpu) (m : Mem) (s : StepOut), dispatchOpcode op cpu m = .ok s →
    (s.isBreak = false → s.cpu.current_opcode = cpu.current_opcode ∧
      s.cpu.flags = cpu.flags) ∧
    (s.isBreak = true → R cpu.flags s.cpu.flags)

/-- Turn a read-template handler shape into the `OpPreserves` obligations,
given that the handler respects `R`. -/
theorem shapePreserves_read {R : StatusFlags → StatusFlags → Prop}
    {f : Cpu → Nat → Cpu} {cpu : Cpu} {s : StepOut}
    (hs : (s.isBreak = false → s.cpu.current_opcode = cpu.current_opcode ∧
            s.cpu.flags = cpu.flags) ∧
          (s.isBreak = true → ∃ c v, s.cpu = f c v ∧ c.flags = cpu.flags))
    (hf : ∀ c v, R c.flags (f c v).flags) :
    (s.isBreak = false → s.cpu.current_opcode = cpu.current_opcode ∧
      s.cpu.flags = cpu.flags) ∧
    (s.isBreak = true → R cpu.flags s.cpu.flags) := by
  refine ⟨hs.1, fun hb => ?_⟩
  obtain ⟨c, v, hcv, hcf⟩ := hs.2 hb
  rw [hcv, ← hcf]
  exact hf c v

/-- Turn a single-byte mutator shape into the `OpPreserves` obligations. -/
theorem shapePreserves_single {R : StatusFlags → StatusFlags → Prop}
    {f : Cpu → Cpu} {cpu : Cpu} {s : StepOut}
    (hs : (s.isBreak = false → s.cpu.current_opcode = cpu.current_opcode ∧
            s.cpu.flags = cpu.flags) ∧
          (s.isBreak = true → ∃ c, s.cpu = f c ∧ c.flags = cpu.flags))
    (hf : ∀ c, R c.flags (f c).flags) :
    (s.isBreak = false → s.cpu.current_opcode = cpu.current_opcode ∧
      s.cpu.flags = cpu.flags) ∧
    (s.isBreak = true → R cpu.flags s.cpu.flags) := by
  refine ⟨hs.1, fun hb => ?_⟩
  obtain ⟨c, hcv, hcf⟩ := hs.2 hb
  rw [hcv, ← hcf]
  exact hf c

/-- Turn a store-template shape (flags never touched) into the
`OpPreserves` obligations, for any reflexive `R`. -/
theorem shapePreserves_store {R : StatusFlags → StatusFlags → Prop}
    {cpu : Cpu} {s : StepOut}
    (hs : s.cpu.flags = cpu.flags ∧
          (s.isBreak = false → s.cpu.current_opcode = cpu.current_opcode))
    (hrefl : ∀ F, R F F) :
    (s.isBreak = false → s.cpu.current_opcode = cpu.current_opcode ∧
      s.cpu.flags = cpu.flags) ∧
    (s.isBreak = true → R cpu.flags s.cpu.flags) := by
  refine ⟨fun hb => ⟨hs.2 hb, hs.1⟩, fun _ => ?_⟩
  rw [hs.1]
  exact hrefl _

/-- The opcodes whose flag table lists exactly N and Z: AND/ORA/EOR,
LDA/LDX/LDY, the register transfers TAX/TAY/TXA/TYA/TSX and
INX/INY/DEX/DEY. -/
def isNZOpcode : OpCode → Bool
  | .AndImmediate | .AndZeroPage | .AndZeroPageX | .AndAbsolute
  | .AndAbsoluteX | .AndAbsoluteY | .AndIndirectX | .AndIndirectY
  | .EorImmediate | .EorZeroPage | .EorZeroPageX | .EorAbsolute
  | .EorAbsoluteX | .EorAbsoluteY | .EorIndirectX | .EorIndirectY
  | .OraImmediate | .OraZeroPage | .OraZeroPageX | .OraAbsolute
  | .OraAbsoluteX | .OraAbsoluteY | .OraIndirectX | .OraIndirectY
  | .LdaImmediate | .LdaZeroPage | .LdaZeroPageX | .LdaAbsolute
  | .LdaAbsoluteX | .LdaAbsoluteY | .LdaIndirectX | .LdaIndirectY
  | .LdxImmediate | .LdxZeroPage | .LdxZeroPageY | .LdxAbsolute
  | .LdxAbsoluteY
  | .LdyImmediate | .LdyZeroPage | .LdyZeroPageX | .LdyAbsolute
  | .LdyAbsoluteX
  | .Tax | .Tay | .Txa | .Tya | .Tsx
  | .Inx | .Iny | .Dex | .Dey => true
  | _ => false

/-- The opcodes whose flag table lists exactly N, Z and C: the CMP
family. -/
def isNZCOpcode : OpCode → Bool
  | .CmpImmediate | .CmpZeroPage | .CmpZeroPageX | .CmpAbsolute
  | .CmpAbsoluteX | .CmpAbsoluteY | .CmpIndirectX | .CmpIndirectY => true
  | _ => false

/-- The opcodes whose flag table lists exactly N, Z, C and V: ADC and
SBC. -/
def isNZCVOpcode : OpCode → Bool
  | .AdcImmediate | .AdcZeroPage | .AdcZeroPageX | .AdcAbsolute
  | .AdcAbsoluteX | .AdcAbsoluteY | .AdcIndirectX | .AdcIndirectY
  | .SbcImmediate | .SbcZeroPage | .SbcZeroPageX | .SbcAbsolute
  | .SbcAbsoluteX | .SbcAbsoluteY | .SbcIndirectX | .SbcIndirectY => true
  | _ => false

/-- The opcodes whose flag table lists exactly N, Z and V: BIT. -/
def isNZVOpcode : OpCode → Bool
  | .BitZeroPage | .BitAbsolute => true
  | _ => false

/-- The opcodes whose flag table lists no flags at all: the stores, TXS
and NOP. -/
def isNoFlagOpcode : OpCode → Bool
  | .StaZeroPage | .StaZeroPageX | .StaAbsolute | .StaAbsoluteX
  | .StaAbsoluteY | .StaIndirectX | .StaIndirectY
  | .StxZeroPage | .StxZeroPageY | .StxAbsolute
  | .StyZeroPage | .StyZeroPageX | .StyAbsolute
  | .Txs | .Nop => true
  | _ => false

/-- The opcodes whose flag table lists only CARRY: CLC and SEC. -/
def isCarryFlagOpcode : OpCode → Bool
  | .Clc | .Sec => true
  | _ => false

/-- The opcodes whose flag table lists only INTERRUPT_DISABLE: CLI and
SEI. -/
def isInterruptFlagOpcode : OpCode → Bool
  | .Cli | .Sei => true
  | _ => false

/-- The opcodes whose flag table lists only DECIMAL: CLD and SED. -/
def isDecimalFlagOpcode : OpCode → Bool
  | .Cld | .Sed => true
  | _ => false

/-- The opcode whose flag table lists only OVERFLOW: CLV. -/
def isOverflowFlagOpcode : OpCode → Bool
  | .Clv => true
  | _ => false

set_option maxHeartbeats 2000000 in
/-- Every N,Z-only opcode obeys the `flagsEqExceptNZ` flag discipline:
their handlers write only ZERO and NEGATIVE (through `set_register`). -/
theorem opPreserves_nz (op : OpCode) (hop : isNZOpcode op = true) :
    OpPreserves flagsEqExceptNZ op := by
  cases op <;> simp only [isNZOpcode] at hop <;>
    try exact Bool.noConfusion hop
  all_goals intro cpu m s h
  all_goals simp only [dispatchOpcode, zeropage_x, zeropage_y, absolute_x,
    absolute_y] at h
  all_goals
    first
      | exact shapePreserves_read
          (immediate_handler_shape _ cpu m s (liftTemplate_ok _ _ h))
          (fun c v => ⟨rfl, rfl, rfl, rfl, rfl, rfl⟩)
      | exact shapePreserves_read
          (zeropage_handler_shape _ cpu m s (liftTemplate_ok _ _ h))
          (fun c v => ⟨rfl, rfl, rfl, rfl, rfl, rfl⟩)
      | exact shapePreserves_read
          (zeropage_indexed_handler_shape _ _ cpu m s (liftTemplate_ok _ _ h))
          (fun c v => ⟨rfl, rfl, rfl, rfl, rfl, rfl⟩)
      | exact shapePreserves_read
          (absolute_handler_shape _ cpu m s (liftTemplate_ok _ _ h))
          (fun c v => ⟨rfl, rfl, rfl, rfl, rfl, rfl⟩)
      | exact shapePreserves_read
          (absolute_indexed_handler_shape _ _ cpu m s (liftTemplate_ok _ _ h))
          (fun c v => ⟨rfl, rfl, rfl, rfl, rfl, rfl⟩)
      | exact shapePreserves_read
          (indirect_x_handler_shape _ cpu m s (liftTemplate_ok _ _ h))
          (fun c v => ⟨rfl, rfl, rfl, rfl, rfl, rfl⟩)
      | exact shapePreserves_read
          (indirect_y_handler_shape _ cpu m s (liftTemplate_ok _ _ h))
          (fun c v => ⟨rfl, rfl, rfl, rfl, rfl, rfl⟩)
      | exact shapePreserves_single
          (single_byte_handler_shape _ cpu m s (liftTemplate_ok _ _ h))
          (fun c => ⟨rfl, rfl, rfl, rfl, rfl, rfl⟩)

set_option maxHeartbeats 1000000 in
/-- The CMP family obeys the `flagsEqExceptNZC` flag discipline. -/
theorem opPreserves_nzc (op : OpCode) (hop : isNZCOpcode op = true) :
    OpPreserves flagsEqExceptNZC op := by
  cases op <;> simp only [isNZCOpcode] at hop <;>
    try exact Bool.noConfusion hop
  all_goals intro cpu m s h
  all_goals simp only [dispatchOpcode, zeropage_x, zeropage_y, absolute_x,
    absolute_y] at h
  all_goals
    first
      | exact shapePreserves_read
          (immediate_handler_shape _ cpu m s (liftTemplate_ok _ _ h))
          (fun c v => ⟨rfl, rfl, rfl, rfl, rfl⟩)
      | exact shapePreserves_read
          (zeropage_handler_shape _ cpu m s (liftTemplate_ok _ _ h))
          (fun c v => ⟨rfl, rfl, rfl, rfl, rfl⟩)
      | exact shapePreserves_read
          (zeropage_indexed_handler_shape _ _ cpu m s (liftTemplate_ok _ _ h))
          (fun c v => ⟨rfl, rfl, rfl, rfl, rfl⟩)
      | exact shapePreserves_read
          (absolute_handler_shape _ cpu m s (liftTemplate_ok _ _ h))
          (fun c v => ⟨rfl, rfl, rfl, rfl, rfl⟩)
      | exact shapePreserves_read
          (absolute_indexed_handler_shape _ _ cpu m s (liftTemplate_ok _ _ h))
          (fun c v => ⟨rfl, rfl, rfl, rfl, rfl⟩)
      | exact shapePreserves_read
          (indirect_x_handler_shape _ cpu m s (liftTemplate_ok _ _ h))
          (fun c v => ⟨rfl, rfl, rfl, rfl, rfl⟩)
      | exact shapePreserves_read
          (indirect_y_handler_shape _ cpu m s (liftTemplate_ok _ _ h))
          (fun c v => ⟨rfl, rfl, rfl, rfl, rfl⟩)

set_option maxHeartbeats 1000000 in
/-- The ADC and SBC families obey the `flagsEqExceptNZCV` flag
discipline. -/
theorem opPreserves_nzcv (op : OpCode) (hop : isNZCVOpcode op = true) :
    OpPreserves flagsEqExceptNZCV op := by
  cases op <;> simp only [isNZCVOpcode] at hop <;>
    try exact Bool.noConfusion hop
  all_goals intro cpu m s h
  all_goals simp only [dispatchOpcode, zeropage_x, zeropage_y, absolute_x,
    absolute_y] at h
  all_goals
    first
      | exact shapePreserves_read
          (immediate_handler_shape _ cpu m s (liftTemplate_ok _ _ h))
          (fun c v => ⟨rfl, rfl, rfl, rfl⟩)
      | exact shapePreserves_read
          (zeropage_handler_shape _ cpu m s (liftTemplate_ok _ _ h))
          (fun c v => ⟨rfl, rfl, rfl, rfl⟩)
      | exact shapePreserves_read
          (zeropage_indexed_handler_shape _ _ cpu m s (liftTemplate_ok _ _ h))
          (fun c v => ⟨rfl, rfl, rfl, rfl⟩)
      | exact shapePreserves_read
          (absolute_handler_shape _ cpu m s (liftTemplate_ok _ _ h))
          (fun c v => ⟨rfl, rfl, rfl, rfl⟩)
      | exact shapePreserves_read
          (absolute_indexed_handler_shape _ _ cpu m s (liftTemplate_ok _ _ h))
          (fun c v => ⟨rfl, rfl, rfl, rfl⟩)
      | exact shapePreserves_read
          (indirect_x_handler_shape _ cpu m s (liftTemplate_ok _ _ h))
          (fun c v => ⟨rfl, rfl, rfl, rfl⟩)
      | exact shapePreserves_read
          (indirect_y_handler_shape _ cpu m s (liftTemplate_ok _ _ h))
          (fun c v => ⟨rfl, rfl, rfl, rfl⟩)

/-- BIT obeys the `flagsEqExceptNZV` flag discipline. -/
theorem opPreserves_nzv (op : OpCode) (hop : isNZVOpcode op = true) :
    OpPreserves flagsEqExceptNZV op := by
  cases op <;> simp only [isNZVOpcode] at hop <;>
    try exact Bool.noConfusion hop
  all_goals intro cpu m s h
  all_goals simp only [dispatchOpcode] at h
  all_goals
    first
      | exact shapePreserves_read
          (zeropage_handler_shape _ cpu m s (liftTemplate_ok _ _ h))
          (fun c v => ⟨rfl, rfl, rfl, rfl, rfl⟩)
      | exact shapePreserves_read
          (absolute_handler_shape _ cpu m s (liftTemplate_ok _ _ h))
          (fun c v => ⟨rfl, rfl, rfl, rfl, rfl⟩)

set_option maxHeartbeats 1000000 in
/-- The stores, TXS and NOP leave the entire status register unchanged. -/
theorem opPreserves_noflag (op : OpCode) (hop : isNoFlagOpcode op = true) :
    OpPreserves Eq op := by
  cases op <;> simp only [isNoFlagOpcode] at hop <;>
    try exact Bool.noConfusion hop
  all_goals intro cpu m s h
  all_goals simp only [dispatchOpcode] at h
  all_goals
    first
      | exact shapePreserves_store
          (store_zeropage_flags_shape _ cpu m s (liftTemplate_ok _ _ h))
          (fun F => rfl)
      | exact shapePreserves_store
          (store_zeropage_indexed_flags_shape _ _ cpu m s (liftTemplate_ok _ _ h))
          (fun F => rfl)
      | exact shapePreserves_store
          (store_absolute_flags_shape _ cpu m s (liftTemplate_ok _ _ h))
          (fun F => rfl)
      | exact shapePreserves_store
          (store_absolute_indexed_flags_shape _ _ cpu m s (liftTemplate_ok _ _ h))
          (fun F => rfl)
      | exact shapePreserves_store
          (store_indirect_x_flags_shape _ cpu m s (liftTemplate_ok _ _ h))
          (fun F => rfl)
      | exact shapePreserves_store
          (store_indirect_y_flags_shape _ cpu m s (liftTemplate_ok _ _ h))
          (fun F => rfl)
      | exact shapePreserves_single
          (single_byte_handler_shape _ cpu m s (liftTemplate_ok _ _ h))
          (fun c => rfl)

/-- CLC and SEC touch only CARRY. -/
theorem opPreserves_carryflag (op : OpCode)
    (hop : isCarryFlagOpcode op = true) : OpPreserves flagsEqExceptC op := by
  cases op <;> simp only [isCarryFlagOpcode] at hop <;>
    try exact Bool.noConfusion hop
  all_goals intro cpu m s h
  all_goals simp only [dispatchOpcode] at h
  all_goals
    exact shapePreserves_single
      (single_byte_handler_shape _ cpu m s (liftTemplate_ok _ _ h))
      (fun c => ⟨rfl, rfl, rfl, rfl, rfl, rfl, rfl⟩)

/-- CLI and SEI touch only INTERRUPT_DISABLE. -/
theorem opPreserves_interruptflag (op : OpCode)
    (hop : isInterruptFlagOpcode op = true) :
    OpPreserves flagsEqExceptI op := by
  cases op <;> simp only [isInterruptFlagOpcode] at hop <;>
    try exact Bool.noConfusion hop
  all_goals intro cpu m s h
  all_goals simp only [dispatchOpcode] at h
  all_goals
    exact shapePreserves_single
      (single_byte_handler_shape _ cpu m s (liftTemplate_ok _ _ h))
      (fun c => ⟨rfl, rfl, rfl, rfl, rfl, rfl, rfl⟩)

/-- CLD and SED touch only DECIMAL. -/
theorem opPreserves_decimalflag (op : OpCode)
    (hop : isDecimalFlagOpcode op = true) :
    OpPreserves flagsEqExceptD op := by
  cases op <;> simp only [isDecimalFlagOpcode] at hop <;>
    try exact Bool.noConfusion hop
  all_goals intro cpu m s h
  all_goals simp only [dispatchOpcode] at h
  all_goals
    exact shapePreserves_single
      (single_byte_handler_shape _ cpu m s (liftTemplate_ok _ _ h))
      (fun c => ⟨rfl, rfl, rfl, rfl, rfl, rfl, rfl⟩)

/-- CLV touches only OVERFLOW. -/
theorem opPreserves_overflowflag (op : OpCode)
    (hop : isOverflowFlagOpcode op = true) :
    OpPreserves flagsEqExceptV op := by
  cases op <;> simp only [isOverflowFlagOpcode] at hop <;>
    try exact Bool.noConfusion hop
  all_goals intro cpu m s h
  all_goals simp only [dispatchOpcode] at h
  all_goals
    exact shapePreserves_single
      (single_byte_handler_shape _ cpu m s (liftTemplate_ok _ _ h))
      (fun c => ⟨rfl, rfl, rfl, rfl, rfl, rfl, rfl⟩)

/-- Running out the remaining cycles of an instruction whose opcode obeys
the flag discipline `R` relates the entry and exit flag registers by `R`:
continue cycles preserve the flags exactly, the break cycle applies `R`. -/
theorem runInstruction_preserves (R : StatusFlags → StatusFlags → Prop)
    (fuel : Nat) :
    ∀ (cpu : Cpu) (m : Mem) (out : Cpu × Nat),
      OpPreserves R cpu.current_opcode → cpu.current_cycle ≠ 0 →
      runInstruction fuel cpu m = some out →
      R cpu.flags out.1.flags := by
  induction fuel with
  | zero =>
    intro cpu m out _ _ h
    exact Option.noConfusion h
  | succ fuel ih =>
    intro cpu m out hP hcyc hrun
    rw [runInstruction] at hrun
    rcases hd : dispatch_current_opcode cpu m with e | s
    · rw [hd] at hrun
      exact Option.noConfusion hrun
    · simp only [hd] at hrun
      rw [dispatch_current_opcode, if_neg hcyc] at hd
      obtain ⟨hcont, hbrk⟩ := hP cpu m s hd
      by_cases hb : s.isBreak
      · rw [if_pos hb] at hrun
        injection hrun with h2
        subst h2
        exact hbrk hb
      · rw [if_neg hb] at hrun
        rcases hr : runInstruction fuel
            { s.cpu with current_cycle := s.cpu.current_cycle + 1 }
            (applyOps m s.ops) with _ | p
        · rw [hr] at hrun
          exact Option.noConfusion hrun
        · rw [hr] at hrun
          injection hrun with h2
          subst h2
          obtain ⟨hopp, hflags⟩ := hcont (Bool.eq_false_iff.mpr hb)
          have hP2 : OpPreserves R
              ({ s.cpu with current_cycle := s.cpu.current_cycle + 1 } :
                Cpu).current_opcode := by
            rw [show ({ s.cpu with
                current_cycle := s.cpu.current_cycle + 1 } :
                Cpu).current_opcode = cpu.current_opcode from hopp]
            exact hP
          have hih := ih { s.cpu with current_cycle := s.cpu.current_cycle + 1 }
            (applyOps m s.ops) p hP2 (by simp) hr
          rw [show ({ s.cpu with
              current_cycle := s.cpu.current_cycle + 1 } : Cpu).flags
            = cpu.flags from hflags] at hih
          exact hih

/-- Unfolding the cycle-0 dispatcher invocation of `runInstruction`: fetch
and decode the opcode, advance `PC`, move to cycle 1. -/
theorem runInstruction_cycle0 (fuel : Nat) (cpu : Cpu) (m : Mem)
    (h0 : cpu.current_cycle = 0) :
    runInstruction (fuel + 1) cpu m =
      (match runInstruction fuel
          { cpu with
              program_counter := (cpu.program_counter + 1) % 65536,
              current_opcode := opcodeFromByte (load8 m cpu.program_counter),
              current_cycle := 1 } m with
        | none => none
        | some (c, k) => some (c, k + 1)) := by
  rw [runInstruction]
  simp [dispatch_current_opcode, h0, fetch_from_pc, applyOps, applyOp,
    busLoad]

/-- C5: every instruction whose flag table lists only some flags leaves
every unlisted architectural status bit unchanged across its complete
execution, for all addressing modes including the page-crossing
absolute-indexed and indirect,Y paths: the AND/ORA/EOR, LDA/LDX/LDY,
transfer and increment/decrement families (N, Z listed) preserve CARRY,
INTERRUPT_DISABLE, DECIMAL, BREAK, IGNORED and OVERFLOW; CMP (N, Z, C)
preserves the other five; ADC/SBC (N, Z, C, V) preserve the other four;
BIT (N, Z, V) preserves the other five; the stores, TXS and NOP preserve
the whole register; each flag instruction touches only its named flag.
The page-cross scratch carry lives in `internal_flags` and is never
visible via the architectural status register. -/
theorem unlisted_flags_invariant (cpu : Cpu) (m : Mem) (out : Cpu × Nat)
    (h0 : cpu.current_cycle = 0)
    (hrun : runInstruction 8 cpu m = some out) :
    (isNZOpcode (opcodeFromByte (load8 m cpu.program_counter)) = true →
      flagsEqExceptNZ cpu.flags out.1.flags) ∧
    (isNZCOpcode (opcodeFromByte (load8 m cpu.program_counter)) = true →
      flagsEqExceptNZC cpu.flags out.1.flags) ∧
    (isNZCVOpcode (opcodeFromByte (load8 m cpu.program_counter)) = true →
      flagsEqExceptNZCV cpu.flags out.1.flags) ∧
    (isNZVOpcode (opcodeFromByte (load8 m cpu.program_counter)) = true →
      flagsEqExceptNZV cpu.flags out.1.flags) ∧
    (isNoFlagOpcode (opcodeFromByte (load8 m cpu.program_counter)) = true →
      cpu.flags = out.1.flags) ∧
    (isCarryFlagOpcode (opcodeFromByte (load8 m cpu.program_counter)) = true →
      flagsEqExceptC cpu.flags out.1.flags) ∧
    (isInterruptFlagOpcode (opcodeFromByte (load8 m cpu.program_counter)) = true →
      flagsEqExceptI cpu.flags out.1.flags) ∧
    (isDecimalFlagOpcode (opcodeFromByte (load8 m cpu.program_counter)) = true →
      flagsEqExceptD cpu.flags out.1.flags) ∧
    (isOverflowFlagOpcode (opcodeFromByte (load8 m cpu.program_counter)) = true →
      flagsEqExceptV cpu.flags out.1.flags) := by
  rw [show (8 : Nat) = 7 + 1 from rfl, runInstruction_cycle0 7 cpu m h0] at hrun
  rcases hr : runInstruction 7
      { cpu with
          program_counter := (cpu.program_counter + 1) % 65536,
          current_opcode := opcodeFromByte (load8 m cpu.program_counter),
          current_cycle := 1 } m with _ | p
  · rw [hr] at hrun
    exact Option.noConfusion hrun
  · rw [hr] at hrun
    injection hrun with h2
    subst h2
    refine ⟨fun hop => ?_, fun hop => ?_, fun hop => ?_, fun hop => ?_,
      fun hop => ?_, fun hop => ?_, fun hop => ?_, fun hop => ?_,
      fun hop => ?_⟩
    · exact runInstruction_preserves flagsEqExceptNZ 7
        { cpu with
            program_counter := (cpu.program_counter + 1) % 65536,
            current_opcode := opcodeFromByte (load8 m cpu.program_counter),
            current_cycle := 1 } m p
        (opPreserves_nz _ hop) (by simp) hr
    · exact runInstruction_preserves flagsEqExceptNZC 7
        { cpu with
            program_counter := (cpu.program_counter + 1) % 65536,
            current_opcode := opcodeFromByte (load8 m cpu.program_counter),
            current_cycle := 1 } m p
        (opPreserves_nzc _ hop) (by simp) hr
    · exact runInstruction_preserves flagsEqExceptNZCV 7
        { cpu with
            program_counter := (cpu.program_counter + 1) % 65536,
            current_opcode := opcodeFromByte (load8 m cpu.program_counter),
            current_cycle := 1 } m p
        (opPreserves_nzcv _ hop) (by simp) hr
    · exact runInstruction_preserves flagsEqExceptNZV 7
        { cpu with
            program_counter := (cpu.program_counter + 1) % 65536,
            current_opcode := opcodeFromByte (load8 m cpu.program_counter),
            current_cycle := 1 } m p
        (opPreserves_nzv _ hop) (by simp) hr
    · exact runInstruction_preserves Eq 7
        { cpu with
            program_counter := (cpu.program_counter + 1) % 65536,
            current_opcode := opcodeFromByte (load8 m cpu.program_counter),
            current_cycle := 1 } m p
        (opPreserves_noflag _ hop) (by simp) hr
    · exact runInstruction_preserves flagsEqExceptC 7
        { cpu with
            program_counter := (cpu.program_counter + 1) % 65536,
            current_opcode := opcodeFromByte (load8 m cpu.program_counter),
            current_cycle := 1 } m p
        (opPreserves_carryflag _ hop) (by simp) hr
    · exact runInstruction_preserves flagsEqExceptI 7
        { cpu with
            program_counter := (cpu.program_counter + 1) % 65536,
            current_opcode := opcodeFromByte (load8 m cpu.program_counter),
            current_cycle := 1 } m p
        (opPreserves_interruptflag _ hop) (by simp) hr
    · exact runInstruction_preserves flagsEqExceptD 7
        { cpu with
            program_counter := (cpu.program_counter + 1) % 65536,
            current_opcode := opcodeFromByte (load8 m cpu.program_counter),
            current_cycle := 1 } m p
        (opPreserves_decimalflag _ hop) (by simp) hr
    · exact runInstruction_preserves flagsEqExceptV 7
        { cpu with
            program_counter := (cpu.program_counter + 1) % 65536,
            current_opcode := opcodeFromByte (load8 m cpu.program_counter),
            current_cycle := 1 } m p
        (opPreserves_overflowflag _ hop) (by simp) hr

/-- Concrete state for the C5 witness: A = 0x0F, X = 1, all status bits
set. -/
def cpuEorWitness : Cpu := { cpuBase with accumulator := 0x0F }

/-- Concrete program for the C5 witness: `EOR $02FF,X` — the indexed
address crosses into page `0x03`; `mem[0x0300] = 0xFF`. -/
def memEorWitness : Mem := fun a =>
  if a = 0x0200 then 0x5D else if a = 0x0201 then 0xFF
  else if a = 0x0202 then 0x02 else if a = 0x0300 then 0xFF else 0

/-- The final state of the C5 witness run: 5 cycles, A = 0xF0, only ZERO
and NEGATIVE rewritten; the page-cross carry ended up in `internal_flags`,
not the status register. -/
def cpuEorFinal : Cpu :=
  { accumulator := 0xF0, x_index := 1, y_index := 1, stack_pointer := 0xFD,
    program_counter := 0x0203,
    flags := ⟨true, false, true, true, true, true, true, true⟩,
    current_opcode := .EorAbsoluteX, current_cycle := 0,
    effective_address := 0x0300, pointer_address := 0,
    internal_flags := ⟨true⟩ }

/-- Witness for C5: the page-crossing `EOR absolute,X` run preserves every
status bit other than N and Z. -/
theorem unlisted_flags_invariant_witness :
    flagsEqExceptNZ cpuEorWitness.flags cpuEorFinal.flags :=
  (unlisted_flags_invariant cpuEorWitness memEorWitness (cpuEorFinal, 5)
      rfl (by decide)).1 (by decide)
